import Mathlib

/-!
# Credential and session lifecycle of `mon-projet-node`

A shallow embedding of `src/models/User.js`, `src/controllers/AuthController.js`
and `src/middleware/authMiddleware.js`.

* The MongoDB collection is a list of documents in natural order; `findOne`
  returns the first document that satisfies the filter.
* Times are milliseconds since the epoch (`Date.now()`), as natural numbers.
* The functions that are not part of the repository (the built-ins `toLowerCase`
  and `trim` of the JavaScript runtime, the driver's cast, `bcryptjs`,
  `jsonwebtoken`) are parameters, bundled in `Lib`; the entropy sources
  (`crypto.randomBytes`, `bcrypt.genSalt`, the fresh `ObjectId`) and the clock
  are explicit inputs, bundled in `Ctx`.
* A document id is the hexadecimal rendering of its `ObjectId`.
-/

namespace AuthApp

/-! ## JavaScript string primitives -/

/-- JavaScript `String.prototype.startsWith`. -/
def startsWith (s p : String) : Bool := p.data.isPrefixOf s.data

/-- JavaScript `String.prototype.substring` with one argument. -/
def substring (s : String) (n : Nat) : String := ⟨s.data.drop n⟩

/-- JavaScript truthiness of an optional string: `undefined` and `''` are falsy. -/
def orElse (v : Option String) (d : String) : String :=
  match v with
  | some s => if s = "" then d else s
  | none => d

/-! ## Regular expressions (for the schema's `match` validator) -/

/-- Regular expressions over characters. -/
inductive Regex where
  | never : Regex
  | eps : Regex
  | cls (p : Char → Bool) : Regex
  | seq (a b : Regex) : Regex
  | alt (a b : Regex) : Regex
  | star (a : Regex) : Regex

namespace Regex

/-- Does the expression accept the empty word? -/
def nullable : Regex → Bool
  | never => false
  | eps => true
  | cls _ => false
  | seq a b => a.nullable && b.nullable
  | alt a b => a.nullable || b.nullable
  | star _ => true

/-- Is the expression syntactically the empty language? -/
def isNever : Regex → Bool
  | never => true
  | _ => false

/-- Sequencing that drops dead branches. -/
def mkSeq (a b : Regex) : Regex :=
  if a.isNever || b.isNever then never else seq a b

/-- Alternation that drops dead branches. -/
def mkAlt (a b : Regex) : Regex :=
  if a.isNever then b else if b.isNever then a else alt a b

/-- Brzozowski derivative with respect to one character. -/
def deriv (c : Char) : Regex → Regex
  | never => never
  | eps => never
  | cls p => if p c then eps else never
  | seq a b =>
    if a.nullable then mkAlt (mkSeq (deriv c a) b) (deriv c b) else mkSeq (deriv c a) b
  | alt a b => mkAlt (deriv c a) (deriv c b)
  | star a => mkSeq (deriv c a) (star a)

/-- Anchored match (`^...$`) of a list of characters. -/
def matchesList : Regex → List Char → Bool
  | r, [] => r.nullable
  | r, c :: cs => matchesList (r.deriv c) cs

/-- Anchored match (`^...$`) of a whole string. -/
def test (r : Regex) (s : String) : Bool := matchesList r s.data

/-- One or more repetitions. -/
def plus (a : Regex) : Regex := seq a (star a)

/-- Zero or one occurrence. -/
def opt (a : Regex) : Regex := alt eps a

/-- A single given character. -/
def lit (c : Char) : Regex := cls (fun d => d == c)

end Regex

/-- The class `\w`: `[A-Za-z0-9_]`. -/
def isWordChar (c : Char) : Bool := c.isAlphanum || c == '_'

/-- The schema's email pattern, `User.js` line 21:
`/^\w+([.-]?\w+)*@\w+([.-]?\w+)*(\.\w{2,3})+$/`. -/
def emailPattern : Regex :=
  let w := Regex.cls isWordChar
  let ws := Regex.plus w
  let grp := Regex.star (Regex.seq (Regex.opt (Regex.cls (fun c => c == '.' || c == '-'))) ws)
  let tld := Regex.plus (Regex.seq (Regex.lit '.') (Regex.seq w (Regex.seq w (Regex.opt w))))
  Regex.seq ws (Regex.seq grp (Regex.seq (Regex.lit '@') (Regex.seq ws (Regex.seq grp tld))))

/-! ## Libraries, process environment and per-request inputs -/

/-- The `name` of the errors that `jwt.verify` raises. -/
inductive JwtErrorName where
  | JsonWebTokenError
  | TokenExpiredError
  | NotBeforeError
  deriving DecidableEq, Repr

/-- The payload that `jwt.verify` returns for a token signed by `generateToken`:
the `userId` claim and the `iat` and `exp` claims, in seconds. -/
structure Decoded where
  userId : String
  iat : Nat
  exp : Nat
  deriving DecidableEq, Repr

/-- The functions the code calls that are not part of the repository.
* `toLowerCase s` is `s.toLowerCase()` and `trim s` is `s.trim()`, the built-ins of
  the JavaScript runtime, whose tables of letters and of white space are Unicode's;
* `castObjectId s` is the driver's cast of the string `s` to an `ObjectId`, given as
  the hexadecimal rendering of the result, or `none` when the cast throws `CastError`;
* `bcryptHash password salt` is `bcrypt.hash`, `bcryptCompare candidate hash` is `bcrypt.compare`;
* `jwtSign userId secret expiresIn clock` is `jwt.sign({ userId }, secret, { expiresIn })`
  run at time `clock`;
* `jwtVerify token secret clock` is `jwt.verify(token, secret)` run at time `clock`:
  the decoded payload, or the name of the error raised. -/
structure Lib where
  toLowerCase : String → String
  trim : String → String
  castObjectId : String → Option String
  bcryptHash : String → String → String
  bcryptCompare : String → String → Bool
  jwtSign : String → String → String → Nat → String
  jwtVerify : String → String → Nat → Except JwtErrorName Decoded

/-- The variables of `process.env` that the session code reads. -/
structure ProcessEnv where
  JWT_SECRET : Option String
  JWT_EXPIRES_IN : Option String
  deriving DecidableEq, Repr

/-- Everything a request handler reads from outside the collection:
the libraries, the process environment, `Date.now()`, the salt that
`bcrypt.genSalt(12)` draws, the raw values behind `crypto.randomBytes`, the
`ObjectId` a new document receives, and whether the mail transport delivers. -/
structure Ctx where
  lib : Lib
  env : ProcessEnv
  now : Nat
  salt : String
  entropy : Nat → Nat
  objectId : String
  smtpOk : Bool

/-! ## The account document (`User.js`, lines 6-61) -/

/-- A document of the `User` collection. -/
structure User where
  _id : String
  username : String
  email : String
  password : String
  isEmailConfirmed : Bool
  emailConfirmationToken : Option String
  passwordResetToken : Option String
  passwordResetExpires : Option Nat
  role : String
  profilePicture : Option String
  createdAt : Nat
  updatedAt : Nat
  __v : Nat
  deriving DecidableEq, Repr

/-- The collection, in natural order. -/
abbrev Store := List User

/-- Mongoose `Model.findOne(filter)`: the first document that satisfies the filter. -/
def findOne (store : Store) (filter : User → Bool) : Option User := store.find? filter

/-- The error a query raises. -/
inductive QueryError where
  | CastError
  deriving DecidableEq, Repr

/-- Mongoose `Model.findById(id)`: the argument is cast to an `ObjectId` first, and
a string that does not cast makes the query throw `CastError`. -/
def findById (c : Ctx) (store : Store) (id : String) : Except QueryError (Option User) :=
  match c.lib.castObjectId id with
  | none => Except.error QueryError.CastError
  | some oid => Except.ok (findOne store (fun u => u._id == oid))

/-- The filter of `findByEmailOrUsername`, `User.js` lines 121-126:
`$or: [{ email: identifier.toLowerCase() }, { username: identifier }]`. -/
def emailOrUsernameFilter (c : Ctx) (identifier : String) (u : User) : Bool :=
  u.email == c.lib.toLowerCase identifier || u.username == identifier

/-- Static method `User.findByEmailOrUsername`, `User.js` lines 120-127. -/
def findByEmailOrUsername (c : Ctx) (store : Store) (identifier : String) : Option User :=
  findOne store (emailOrUsernameFilter c identifier)

/-- Node `crypto.randomBytes(n)`: `n` bytes. -/
def randomBytes (entropy : Nat → Nat) (n : Nat) : List Nat :=
  (List.range n).map (fun i => entropy i % 256)

/-- One hexadecimal digit, lower case. -/
def hexDigit (n : Nat) : Char :=
  if n < 10 then Char.ofNat (48 + n) else Char.ofNat (87 + n)

/-- The two hexadecimal digits of a byte. -/
def hexOfByte (b : Nat) : List Char := [hexDigit (b % 256 / 16), hexDigit (b % 16)]

/-- Node `Buffer.prototype.toString('hex')`. -/
def toHex (bytes : List Nat) : String := ⟨(bytes.map hexOfByte).flatten⟩

/-! ## Instance methods of the schema (`User.js`, lines 69-117) -/

/-- Method `generateEmailConfirmationToken`, `User.js` lines 97-101:
the mutated document and the returned token. -/
def generateEmailConfirmationToken (c : Ctx) (u : User) : User × String :=
  let token := toHex (randomBytes c.entropy 32)
  ({ u with emailConfirmationToken := some token }, token)

/-- Method `generatePasswordResetToken`, `User.js` lines 103-108:
the mutated document and the returned token. -/
def generatePasswordResetToken (c : Ctx) (u : User) : User × String :=
  let token := toHex (randomBytes c.entropy 32)
  ({ u with passwordResetToken := some token,
            passwordResetExpires := some (c.now + 10 * 60 * 1000) }, token)

/-- Method `comparePassword`, `User.js` lines 89-95. -/
def comparePassword (c : Ctx) (u : User) (candidatePassword : String) : Bool :=
  c.lib.bcryptCompare candidatePassword u.password

/-- A JSON scalar. -/
inductive Value where
  | str (s : String)
  | bool (b : Bool)
  | num (n : Nat)
  | null
  deriving DecidableEq, Repr

/-- An optional string as a JSON scalar. -/
def Value.ofOptStr : Option String → Value
  | some s => Value.str s
  | none => Value.null

/-- An optional number as a JSON scalar. -/
def Value.ofOptNum : Option Nat → Value
  | some n => Value.num n
  | none => Value.null

/-- Mongoose `this.toObject()`: the document as a plain object, one entry per schema
path, the two timestamps and the version key `__v`. -/
def toObject (u : User) : List (String × Value) :=
  [("_id", Value.str u._id),
   ("username", Value.str u.username),
   ("email", Value.str u.email),
   ("password", Value.str u.password),
   ("isEmailConfirmed", Value.bool u.isEmailConfirmed),
   ("emailConfirmationToken", Value.ofOptStr u.emailConfirmationToken),
   ("passwordResetToken", Value.ofOptStr u.passwordResetToken),
   ("passwordResetExpires", Value.ofOptNum u.passwordResetExpires),
   ("role", Value.str u.role),
   ("profilePicture", Value.ofOptStr u.profilePicture),
   ("createdAt", Value.num u.createdAt),
   ("updatedAt", Value.num u.updatedAt),
   ("__v", Value.num u.__v)]

/-- The operator `delete obj[key]`. -/
def deleteKey (obj : List (String × Value)) (key : String) : List (String × Value) :=
  obj.filter (fun kv => kv.1 != key)

/-- The method `toJSON`, `User.js` lines 110-117. -/
def toJSON (u : User) : List (String × Value) :=
  let user := toObject u
  let user := deleteKey user "password"
  let user := deleteKey user "emailConfirmationToken"
  let user := deleteKey user "passwordResetToken"
  let user := deleteKey user "passwordResetExpires"
  user

/-! ## Persisting a document (`save`) -/

/-- Why `save` rejects. -/
inductive SaveError where
  | ValidationError
  | DuplicateKey
  deriving DecidableEq, Repr

/-- The validators of the path `password`, `User.js` lines 23-27. -/
def validatePassword (p : String) : Bool := p != "" && decide (6 ≤ p.length)

/-- The validators of all paths, `User.js` lines 7-48, run when a new document is saved. -/
def validateDocument (u : User) : Bool :=
  (u.username != "" && decide (3 ≤ u.username.length) && decide (u.username.length ≤ 30))
  && (u.email != "" && emailPattern.test u.email)
  && validatePassword u.password
  && (u.role == "user" || u.role == "admin")

/-- The unique indexes (`unique: true` on `username` and on `email`, and the
primary key): does inserting `doc` collide with a stored document? -/
def duplicatesKey (store : Store) (doc : User) : Bool :=
  store.any (fun v => v._id == doc._id || v.username == doc.username || v.email == doc.email)

/-- Mongoose `doc.save()`. Validation runs first (all paths of a new document, the
modified `password` of a stored one), then the two `pre('save')` hooks of
`User.js` lines 70-86 (hash the password when it was modified, refresh
`updatedAt`), then the write: an insert under the unique indexes for a new
document, a replacement of the document with the same `_id` otherwise. -/
def save (c : Ctx) (store : Store) (doc : User) (isNew passwordModified : Bool) :
    Except SaveError (Store × User) :=
  let valid := if isNew then validateDocument doc
               else (!passwordModified || validatePassword doc.password)
  if !valid then Except.error SaveError.ValidationError
  else
    let doc := if passwordModified then { doc with password := c.lib.bcryptHash doc.password c.salt }
               else doc
    let doc := { doc with updatedAt := c.now }
    if isNew then
      if duplicatesKey store doc then Except.error SaveError.DuplicateKey
      else Except.ok (store ++ [doc], doc)
    else Except.ok (store.map (fun v => if v._id == doc._id then doc else v), doc)

/-- Constructor `new User({ username, email, password })`: the setters of the schema
(`trim` on `username`; `lowercase` and `trim` on `email`) and its defaults. -/
def newUser (c : Ctx) (username email password : String) : User :=
  { _id := c.objectId,
    username := c.lib.trim username,
    email := c.lib.trim (c.lib.toLowerCase email),
    password := password,
    isEmailConfirmed := false,
    emailConfirmationToken := none,
    passwordResetToken := none,
    passwordResetExpires := none,
    role := "user",
    profilePicture := none,
    createdAt := c.now,
    updatedAt := c.now,
    __v := 0 }

/-! ## HTTP responses -/

/-- The `data` member of a success envelope. -/
inductive Data where
  | registered (id username email : String) (isEmailConfirmed : Bool)
  | session (user : List (String × Value)) (token : String)
  deriving DecidableEq, Repr

/-- The JSON body of a response. -/
structure Body where
  success : Bool
  message : String
  errors : Option (List String)
  data : Option Data
  deriving DecidableEq, Repr

/-- What `res.status(s).json(b)` sends. -/
structure Response where
  status : Nat
  body : Body
  deriving DecidableEq, Repr

/-- The body `{ success: false, message }`. -/
def failure (message : String) : Body :=
  { success := false, message := message, errors := none, data := none }

/-- The body `{ success: true, message }`. -/
def success (message : String) : Body :=
  { success := true, message := message, errors := none, data := none }

/-- The reply to a request that express-validator rejected. -/
def validationFailed (errors : List String) : Response :=
  { status := 400,
    body := { success := false, message := "Validation errors", errors := some errors, data := none } }

/-- A confirmation or reset message handed to the mail transport. -/
structure Mail where
  recipient : String
  token : String
  deriving DecidableEq, Repr

/-- The effect of a controller action: the collection afterwards, the response
sent, and the message delivered, if any. -/
structure Result where
  store : Store
  response : Response
  mail : Option Mail
  deriving DecidableEq, Repr

/-! ## `AuthController` (`src/controllers/AuthController.js`) -/

/-- The secret both `generateToken` and the verifiers use:
`process.env.JWT_SECRET || 'fallback-secret-key'`. -/
def jwtSecret (env : ProcessEnv) : String := orElse env.JWT_SECRET "fallback-secret-key"

/-- Method `generateToken`, lines 305-311. -/
def generateToken (c : Ctx) (userId : String) : String :=
  c.lib.jwtSign userId (jwtSecret c.env) (orElse c.env.JWT_EXPIRES_IN "7d") c.now

/-- Method `verifyToken`, lines 314-320: the decoded payload, or the message of the
error thrown. -/
def verifyToken (c : Ctx) (token : String) : Except String Decoded :=
  match c.lib.jwtVerify token (jwtSecret c.env) c.now with
  | Except.ok decoded => Except.ok decoded
  | Except.error _ => Except.error "Invalid token"

/-- The request of `register`: what `validationResult(req)` holds, and `req.body`. -/
structure RegisterRequest where
  errors : List String
  username : String
  email : String
  password : String
  deriving DecidableEq, Repr

/-- Handler `register`, lines 12-69. -/
def register (c : Ctx) (store : Store) (req : RegisterRequest) : Result :=
  if !req.errors.isEmpty then
    { store := store, response := validationFailed req.errors, mail := none }
  else
    match findByEmailOrUsername c store req.email with
    | some _ =>
      { store := store,
        response := { status := 409,
                      body := failure "User already exists with this email or username" },
        mail := none }
    | none =>
      let user := newUser c req.username req.email req.password
      let (user, confirmationToken) := generateEmailConfirmationToken c user
      match save c store user true true with
      | Except.error _ =>
        { store := store,
          response := { status := 500, body := failure "Internal server error during registration" },
          mail := none }
      | Except.ok (store, user) =>
        if c.smtpOk then
          { store := store,
            response :=
              { status := 201,
                body :=
                  { success := true,
                    message := "User registered successfully. Please check your email to confirm your account.",
                    errors := none,
                    data := some (Data.registered user._id user.username user.email
                      user.isEmailConfirmed) } },
            mail := some { recipient := user.email, token := confirmationToken } }
        else
          { store := store,
            response := { status := 500, body := failure "Internal server error during registration" },
            mail := none }

/-- The request of `login`. -/
structure LoginRequest where
  errors : List String
  identifier : String
  password : String
  deriving DecidableEq, Repr

/-- Handler `login`, lines 72-130. The collection is only read. -/
def login (c : Ctx) (store : Store) (req : LoginRequest) : Response :=
  if !req.errors.isEmpty then validationFailed req.errors
  else
    match findByEmailOrUsername c store req.identifier with
    | none => { status := 401, body := failure "Invalid credentials" }
    | some user =>
      if !comparePassword c user req.password then
        { status := 401, body := failure "Invalid credentials" }
      else if !user.isEmailConfirmed then
        { status := 401, body := failure "Please confirm your email before logging in" }
      else
        let token := generateToken c user._id
        { status := 200,
          body := { success := true, message := "Login successful", errors := none,
                    data := some (Data.session (toJSON user) token) } }

/-- The bearer token a response carries, if any (`data.token`). -/
def Response.token (r : Response) : Option String :=
  match r.body.data with
  | some (Data.session _ token) => some token
  | _ => none

/-- The filter of `resetPassword`, lines 222-225:
`{ passwordResetToken: token, passwordResetExpires: { $gt: Date.now() } }`. -/
def resetFilter (token : String) (now : Nat) (u : User) : Bool :=
  u.passwordResetToken == some token &&
    (match u.passwordResetExpires with
     | some expires => decide (now < expires)
     | none => false)

/-- The request of `resetPassword`: `req.params.token` and `req.body.password`. -/
structure ResetPasswordRequest where
  errors : List String
  token : String
  password : String
  deriving DecidableEq, Repr

/-- Handler `resetPassword`, lines 208-252. -/
def resetPassword (c : Ctx) (store : Store) (req : ResetPasswordRequest) : Result :=
  if !req.errors.isEmpty then
    { store := store, response := validationFailed req.errors, mail := none }
  else
    match findOne store (resetFilter req.token c.now) with
    | none =>
      { store := store,
        response := { status := 400, body := failure "Invalid or expired password reset token" },
        mail := none }
    | some user =>
      let user := { user with password := req.password,
                              passwordResetToken := none,
                              passwordResetExpires := none }
      match save c store user false true with
      | Except.error _ =>
        { store := store,
          response := { status := 500, body := failure "Internal server error during password reset" },
          mail := none }
      | Except.ok (store, _) =>
        { store := store,
          response := { status := 200, body := success "Password reset successfully" },
          mail := none }

/-- Handler `confirmEmail`, lines 133-161, for `req.params.token`. The handler
does not consult `validationResult`. -/
def confirmEmail (c : Ctx) (store : Store) (token : String) : Result :=
  match findOne store (fun u => u.emailConfirmationToken == some token) with
  | none =>
    { store := store,
      response := { status := 400, body := failure "Invalid or expired confirmation token" },
      mail := none }
  | some user =>
    let user := { user with isEmailConfirmed := true, emailConfirmationToken := none }
    match save c store user false false with
    | Except.error _ =>
      { store := store,
        response := { status := 500,
                      body := failure "Internal server error during email confirmation" },
        mail := none }
    | Except.ok (store, _) =>
      { store := store,
        response := { status := 200, body := success "Email confirmed successfully" },
        mail := none }

/-- The request of `requestPasswordReset` and of `resendConfirmation`:
what `validationResult(req)` holds, and `req.body.email`. -/
structure EmailRequest where
  errors : List String
  email : String
  deriving DecidableEq, Repr

/-- Handler `requestPasswordReset`, lines 164-205. -/
def requestPasswordReset (c : Ctx) (store : Store) (req : EmailRequest) : Result :=
  if !req.errors.isEmpty then
    { store := store, response := validationFailed req.errors, mail := none }
  else
    match findOne store (fun u => u.email == c.lib.toLowerCase req.email) with
    | none =>
      { store := store,
        response :=
          { status := 200,
            body := success
              "If an account with that email exists, a password reset link has been sent." },
        mail := none }
    | some user =>
      let (user, resetToken) := generatePasswordResetToken c user
      match save c store user false false with
      | Except.error _ =>
        { store := store,
          response := { status := 500,
                        body := failure "Internal server error during password reset request" },
          mail := none }
      | Except.ok (store, user) =>
        if c.smtpOk then
          { store := store,
            response :=
              { status := 200,
                body := success
                  "If an account with that email exists, a password reset link has been sent." },
            mail := some { recipient := user.email, token := resetToken } }
        else
          { store := store,
            response := { status := 500,
                          body := failure "Internal server error during password reset request" },
            mail := none }

/-- Handler `resendConfirmation`, lines 255-302. -/
def resendConfirmation (c : Ctx) (store : Store) (req : EmailRequest) : Result :=
  if !req.errors.isEmpty then
    { store := store, response := validationFailed req.errors, mail := none }
  else
    match findOne store (fun u => u.email == c.lib.toLowerCase req.email) with
    | none =>
      { store := store, response := { status := 404, body := failure "User not found" },
        mail := none }
    | some user =>
      if user.isEmailConfirmed then
        { store := store,
          response := { status := 400, body := failure "Email is already confirmed" },
          mail := none }
      else
        let (user, confirmationToken) := generateEmailConfirmationToken c user
        match save c store user false false with
        | Except.error _ =>
          { store := store,
            response := { status := 500,
                          body := failure "Internal server error while resending confirmation" },
            mail := none }
        | Except.ok (store, user) =>
          if c.smtpOk then
            { store := store,
              response := { status := 200, body := success "Confirmation email sent successfully" },
              mail := some { recipient := user.email, token := confirmationToken } }
          else
            { store := store,
              response := { status := 500,
                            body := failure "Internal server error while resending confirmation" },
              mail := none }

/-- An operation of `AuthController` with its input. -/
inductive Operation where
  | register (req : RegisterRequest)
  | login (req : LoginRequest)
  | confirmEmail (token : String)
  | resendConfirmation (req : EmailRequest)
  | requestPasswordReset (req : EmailRequest)
  | resetPassword (req : ResetPasswordRequest)
  deriving DecidableEq, Repr

/-- The collection after an operation of `AuthController`. -/
def Operation.run (c : Ctx) (store : Store) : Operation → Store
  | Operation.register req => (AuthApp.register c store req).store
  | Operation.login _ => store
  | Operation.confirmEmail token => (AuthApp.confirmEmail c store token).store
  | Operation.resendConfirmation req => (AuthApp.resendConfirmation c store req).store
  | Operation.requestPasswordReset req => (AuthApp.requestPasswordReset c store req).store
  | Operation.resetPassword req => (AuthApp.resetPassword c store req).store

/-- The store predicate of the data model: every account whose email is
confirmed has no confirmation token. -/
def ConfirmedHasNoToken (store : Store) : Prop :=
  ∀ u ∈ store, u.isEmailConfirmed = true → u.emailConfirmationToken = none

/-- The primary key: no two documents of the collection share an `_id`. -/
def UniqueIds (store : Store) : Prop :=
  ∀ u ∈ store, ∀ v ∈ store, u._id = v._id → u = v

/-! ## Token format (`src/middleware/validation.js`, lines 98-105) -/

/-- The class `[a-f0-9]`. -/
def isLowerHex (c : Char) : Bool :=
  (decide ('a' ≤ c) && decide (c ≤ 'f')) || (decide ('0' ≤ c) && decide (c ≤ '9'))

/-- The pattern `/^[a-f0-9]+$/`. -/
def tokenPattern : Regex := Regex.plus (Regex.cls isLowerHex)

/-- The chain `validateToken`: the messages of the rules that `token` breaks. -/
def validateToken (token : String) : List String :=
  (if 32 ≤ token.length ∧ token.length ≤ 128 then [] else ["Invalid token format"]) ++
  (if tokenPattern.test token then [] else ["Token must contain only hexadecimal characters"])

/-! ## Rate limits (`src/app.js`, `src/routes/authRoutes.js`, `src/routes/userRoutes.js`) -/

/-- The options `windowMs` and `max` given to `rateLimit`. -/
structure RateLimit where
  windowMs : Nat
  max : Nat
  deriving DecidableEq, Repr

/-- The limiter of `app.js`, lines 29-33, mounted before every route. -/
def genericLimiter : RateLimit := { windowMs := 15 * 60 * 1000, max := 100 }

/-- The limiter `authLimiter`, `authRoutes.js` lines 17-26. -/
def authLimiter : RateLimit := { windowMs := 15 * 60 * 1000, max := 5 }

/-- The limiter `emailLimiter`, `authRoutes.js` lines 29-38. -/
def emailLimiter : RateLimit := { windowMs := 60 * 60 * 1000, max := 3 }

/-- The limiter `sensitiveOpLimiter`, `userRoutes.js` lines 18-27. -/
def sensitiveOpLimiter : RateLimit := { windowMs := 15 * 60 * 1000, max := 3 }

/-- The limiter `updateLimiter`, `userRoutes.js` lines 30-39. -/
def updateLimiter : RateLimit := { windowMs := 60 * 60 * 1000, max := 10 }

/-- The routes of the application. -/
inductive Route where
  | register
  | login
  | confirmEmail
  | resendConfirmation
  | requestPasswordReset
  | resetPassword
  | getProfile
  | updateProfile
  | changePassword
  | deleteAccount
  | getAllUsers
  | getUserById
  | health
  deriving DecidableEq, Repr

/-- The limiter named in the registration of a route (`setupRoutes` of
`authRoutes.js` and of `userRoutes.js`), if any. -/
def routeLimiter : Route → Option RateLimit
  | Route.register => some authLimiter
  | Route.login => some authLimiter
  | Route.confirmEmail => none
  | Route.resendConfirmation => some emailLimiter
  | Route.requestPasswordReset => some emailLimiter
  | Route.resetPassword => some authLimiter
  | Route.getProfile => none
  | Route.updateProfile => some updateLimiter
  | Route.changePassword => some sensitiveOpLimiter
  | Route.deleteAccount => some sensitiveOpLimiter
  | Route.getAllUsers => none
  | Route.getUserById => none
  | Route.health => none

/-- The limiters a request to a route passes, in order: the one of `app.js`,
then the one of the route. -/
def limiters (r : Route) : List RateLimit := genericLimiter :: (routeLimiter r).toList

/-- The counter of one client under one limiter: the start of the current
window and the requests counted in it. -/
structure Window where
  start : Nat
  count : Nat
  deriving DecidableEq, Repr

/-- Modelled from the spec: the admission rule of a limiter (the package
`express-rate-limit` is not part of `src/`). If no window is active or the
current one has elapsed, a new window starts with count 1 and the request is
admitted; otherwise the count is incremented and the request is admitted if the
new count is within the maximum. -/
def admission (l : RateLimit) (w : Option Window) (now : Nat) : Bool × Window :=
  match w with
  | none => (true, { start := now, count := 1 })
  | some w =>
    if w.start + l.windowMs ≤ now then (true, { start := now, count := 1 })
    else (decide (w.count + 1 ≤ l.max), { start := w.start, count := w.count + 1 })

/-- One request of a client through a chain of limiters, each with its own
counter: whether it reaches the handler, and the counters afterwards. A limiter
that rejects ends the chain. -/
def passLimiters : List RateLimit → List (Option Window) → Nat → Bool × List (Option Window)
  | [], _, _ => (true, [])
  | l :: ls, ws, now =>
    let r := admission l (ws.headD none) now
    if r.1 then
      let rest := passLimiters ls ws.tail now
      (rest.1, some r.2 :: rest.2)
    else (false, some r.2 :: ws.tail)

/-- A client's requests to one route, at the given times in order: the
counters it starts from, then whether each request is admitted. -/
def runRequests (r : Route) : List (Option Window) → List Nat → List Bool
  | _, [] => []
  | ws, t :: ts =>
    let res := passLimiters (limiters r) ws t
    res.1 :: runRequests r res.2 ts

/-! ## `AuthMiddleware` (`src/middleware/authMiddleware.js`) -/

/-- The object stored in `req.user`. -/
structure Principal where
  userId : String
  username : String
  email : String
  role : String
  deriving DecidableEq, Repr

/-- How a middleware ends: it sends a response and stops the chain, or it calls
`next()` leaving `req.user` as given, or an exception escapes it. -/
inductive Outcome where
  | respond (r : Response)
  | next (user : Option Principal)
  | raise (name : String)
  deriving DecidableEq, Repr

/-- The principal built from a loaded document, lines 40-45 and 96-101. -/
def principalOf (user : User) : Principal :=
  { userId := user._id, username := user.username, email := user.email, role := user.role }

/-- Middleware `authenticate`, lines 6-69, on a request whose `Authorization` header is
`authHeader` and whose `req.user` is not yet set. A `CastError` thrown by
`User.findById` is caught by the `catch` of lines 48-68, which names neither
`CastError` nor `NotBeforeError` and answers 500 to both. -/
def authenticate (c : Ctx) (store : Store) (authHeader : Option String) : Outcome :=
  match authHeader with
  | none =>
    Outcome.respond { status := 401, body := failure "Access denied. No token provided." }
  | some authHeader =>
    if authHeader = "" || !startsWith authHeader "Bearer " then
      Outcome.respond { status := 401, body := failure "Access denied. No token provided." }
    else
      let token := substring authHeader 7
      match c.lib.jwtVerify token (jwtSecret c.env) c.now with
      | Except.ok decoded =>
        match findById c store decoded.userId with
        | Except.error _ =>
          Outcome.respond
            { status := 500, body := failure "Internal server error during authentication" }
        | Except.ok none =>
          Outcome.respond { status := 401, body := failure "Token is no longer valid" }
        | Except.ok (some user) =>
          if !user.isEmailConfirmed then
            Outcome.respond
              { status := 401, body := failure "Please confirm your email to access this resource" }
          else Outcome.next (some (principalOf user))
      | Except.error JwtErrorName.JsonWebTokenError =>
        Outcome.respond { status := 401, body := failure "Invalid token" }
      | Except.error JwtErrorName.TokenExpiredError =>
        Outcome.respond { status := 401, body := failure "Token expired" }
      | Except.error _ =>
        Outcome.respond
          { status := 500, body := failure "Internal server error during authentication" }

/-- Middleware `requireAdmin`, lines 72-80, on a request whose `req.user` is `user`.
Reading `req.user.role` when `req.user` is `undefined` throws a `TypeError`. -/
def requireAdmin (user : Option Principal) : Outcome :=
  match user with
  | none => Outcome.raise "TypeError"
  | some p =>
    if p.role != "admin" then
      Outcome.respond
        { status := 403, body := failure "Access denied. Admin privileges required." }
    else Outcome.next (some p)

/-- Middleware `optionalAuth`, lines 83-109, on a request whose `req.user` is not yet
set. Its `catch` swallows every error, a `CastError` of `User.findById` included. -/
def optionalAuth (c : Ctx) (store : Store) (authHeader : Option String) : Outcome :=
  match authHeader with
  | none => Outcome.next none
  | some authHeader =>
    if authHeader = "" || !startsWith authHeader "Bearer " then Outcome.next none
    else
      let token := substring authHeader 7
      match c.lib.jwtVerify token (jwtSecret c.env) c.now with
      | Except.ok decoded =>
        match findById c store decoded.userId with
        | Except.error _ => Outcome.next none
        | Except.ok (some user) =>
          if user.isEmailConfirmed then Outcome.next (some (principalOf user))
          else Outcome.next none
        | Except.ok none => Outcome.next none
      | Except.error _ => Outcome.next none

/-- The principal `authenticate` attaches, if it accepts. -/
def accepted : Outcome → Option Principal
  | Outcome.next user => user
  | _ => none

/-- The contract of `jsonwebtoken` that the session code relies on, for the
reading `timespan` of the `expiresIn` option in seconds: `'7d'` is seven days;
a token signed at time `t0` carries `iat = ⌊t0 / 1000⌋` and
`exp = iat + timespan expiresIn`; verified under the same secret it yields its
payload while the clock, in seconds, is below `exp`, and raises
`TokenExpiredError` from `exp` on. -/
structure Lawful (L : Lib) (timespan : String → Nat) : Prop where
  seven_days : timespan "7d" = 7 * 24 * 60 * 60
  verify_sign : ∀ (userId secret expiresIn : String) (t0 t : Nat),
    t / 1000 < t0 / 1000 + timespan expiresIn →
    L.jwtVerify (L.jwtSign userId secret expiresIn t0) secret t
      = Except.ok { userId := userId, iat := t0 / 1000, exp := t0 / 1000 + timespan expiresIn }
  verify_expired : ∀ (userId secret expiresIn : String) (t0 t : Nat),
    t0 / 1000 + timespan expiresIn ≤ t / 1000 →
    L.jwtVerify (L.jwtSign userId secret expiresIn t0) secret t
      = Except.error JwtErrorName.TokenExpiredError

/-! ## A reference instance of the libraries

The theorems below hold for every `Lib`. To evaluate the code on concrete
requests a transparent instance is used: lower-casing of the ASCII letters,
trimming of ASCII white space, a cast that accepts the strings of 24
hexadecimal digits, a "hash" that records the salt and the password, and
session tokens whose signature is the key itself, written
`i..i.e..e.n..n.u..u.<userId><key>` with `iat`, `exp`, `nbf` and the length of
`userId` in unary (`nbf = 0` when the claim is absent). The checks of
`refVerify` follow the order of `jsonwebtoken`: structure, signature, `nbf`,
`exp`. -/

/-- The content of a reference token. -/
structure Jws where
  iat : Nat
  exp : Nat
  nbf : Nat
  userId : String
  key : String
  deriving DecidableEq, Repr

/-- Read a unary field written with `c` and closed by a dot. -/
def takeUnary (c : Char) (l : List Char) : Option (Nat × List Char) :=
  match l.dropWhile (fun d => d == c) with
  | d :: rest => if d = '.' then some ((l.takeWhile (fun d => d == c)).length, rest) else none
  | [] => none

/-- Serialise a reference token. -/
def refEncode (j : Jws) : String :=
  ⟨List.replicate j.iat 'i' ++ '.' :: (List.replicate j.exp 'e' ++ '.' ::
    (List.replicate j.nbf 'n' ++ '.' :: (List.replicate j.userId.length 'u' ++ '.' ::
      (j.userId.data ++ j.key.data))))⟩

/-- Parse a reference token; `none` when the structure is malformed. -/
def refDecode (token : String) : Option Jws :=
  match takeUnary 'i' token.data with
  | none => none
  | some (iat, l1) =>
    match takeUnary 'e' l1 with
    | none => none
    | some (exp, l2) =>
      match takeUnary 'n' l2 with
      | none => none
      | some (nbf, l3) =>
        match takeUnary 'u' l3 with
        | none => none
        | some (n, l4) =>
          if l4.length < n then none
          else some { iat := iat, exp := exp, nbf := nbf, userId := ⟨l4.take n⟩, key := ⟨l4.drop n⟩ }

/-- The time spans the reference instance understands, in seconds: `'7d'`, and
otherwise one second per character. -/
def refTimespan (expiresIn : String) : Nat :=
  if expiresIn = "7d" then 7 * 24 * 60 * 60 else expiresIn.length

/-- Reference `jwt.sign`. -/
def refSign (userId secret expiresIn : String) (clock : Nat) : String :=
  refEncode { iat := clock / 1000, exp := clock / 1000 + refTimespan expiresIn, nbf := 0,
              userId := userId, key := secret }

/-- Reference `jwt.verify`. -/
def refVerify (token secret : String) (clock : Nat) : Except JwtErrorName Decoded :=
  match refDecode token with
  | none => Except.error JwtErrorName.JsonWebTokenError
  | some j =>
    if j.key != secret then Except.error JwtErrorName.JsonWebTokenError
    else if clock / 1000 < j.nbf then Except.error JwtErrorName.NotBeforeError
    else if j.exp ≤ clock / 1000 then Except.error JwtErrorName.TokenExpiredError
    else Except.ok { userId := j.userId, iat := j.iat, exp := j.exp }

/-- Trimming of the reference instance: `String.prototype.trim` on strings whose
white space is among space, tab, carriage return and line feed. -/
def refTrim (s : String) : String :=
  ⟨((s.data.dropWhile Char.isWhitespace).reverse.dropWhile Char.isWhitespace).reverse⟩

/-- Lower-casing of the reference instance: `String.prototype.toLowerCase` on
strings of ASCII characters, where it maps the letters `A` to `Z` and keeps
every other character. -/
def refToLowerCase (s : String) : String := ⟨s.data.map Char.toLower⟩

/-- A hexadecimal digit of either case. -/
def isHexDigit (c : Char) : Bool :=
  c.isDigit || (decide ('a' ≤ c) && decide (c ≤ 'f')) || (decide ('A' ≤ c) && decide (c ≤ 'F'))

/-- The cast of the reference instance: a string of 24 hexadecimal digits casts
to the `ObjectId` it renders, any other string does not cast. -/
def refCastObjectId (s : String) : Option String :=
  if s.length = 24 ∧ s.data.all isHexDigit = true then some (refToLowerCase s) else none

/-- The reference libraries. -/
def refLib : Lib :=
  { toLowerCase := refToLowerCase,
    trim := refTrim,
    castObjectId := refCastObjectId,
    bcryptHash := fun password salt => "$2a$12$" ++ salt ++ "$" ++ password,
    bcryptCompare := fun candidate hash =>
      decide (candidate.data.reverse.isPrefixOf hash.data.reverse = true ∧
        startsWith hash "$2a$12$" = true),
    jwtSign := refSign,
    jwtVerify := refVerify }

/-- A request context at time `now`, with no environment variable set. -/
def refCtx (now : Nat) : Ctx :=
  { lib := refLib,
    env := { JWT_SECRET := none, JWT_EXPIRES_IN := none },
    now := now,
    salt := "c2FsdA",
    entropy := fun i => 7 * i + 3,
    objectId := "64b000000000000000000002",
    smtpOk := true }

/-- A confirmed account: `alice`, whose password is `Passw0rd1`. -/
def alice : User :=
  { _id := "64b000000000000000000001",
    username := "alice",
    email := "alice@x.com",
    password := "$2a$12$c2FsdA$Passw0rd1",
    isEmailConfirmed := true,
    emailConfirmationToken := none,
    passwordResetToken := none,
    passwordResetExpires := none,
    role := "user",
    profilePicture := none,
    createdAt := 1000,
    updatedAt := 1000,
    __v := 0 }

/-- An account that has not confirmed its email: `carol`, whose password is `Secr3t`. -/
def carol : User :=
  { alice with
    _id := "64b000000000000000000003",
    username := "carol",
    email := "carol@x.com",
    password := "$2a$12$c2FsdA$Secr3t",
    isEmailConfirmed := false,
    emailConfirmationToken := some "00112233445566778899aabbccddeeff" }

/-- A reference token for `alice`, signed with the fallback secret, issued at
second 1 and expiring at second 9. -/
def aliceToken : String :=
  refEncode { iat := 1, exp := 9, nbf := 0, userId := "64b000000000000000000001",
              key := "fallback-secret-key" }

/-- A reference token for `alice`, signed with the fallback secret, that
becomes valid at second 50 only. -/
def earlyToken : String :=
  refEncode { iat := 1, exp := 90, nbf := 50, userId := "64b000000000000000000001",
              key := "fallback-secret-key" }

/-- A reference token signed with the fallback secret whose subject, `abc`, is
not the rendering of an `ObjectId`. -/
def badIdToken : String :=
  refEncode { iat := 1, exp := 9, nbf := 0, userId := "abc", key := "fallback-secret-key" }

/-- The reply of `resetPassword` to a token it does not accept. -/
def tokenInvalid : Response :=
  { status := 400, body := failure "Invalid or expired password reset token" }

/-- The account `carol` after a reset token was issued to her at time 5000. -/
def carolReset : User := (generatePasswordResetToken (refCtx 5000) carol).1

/-- The document `resetPassword` writes for the account `u` and the new
password `p`: the hash of `p`, both reset fields cleared, `updatedAt` refreshed. -/
def resetDocument (c : Ctx) (u : User) (p : String) : User :=
  { u with password := c.lib.bcryptHash p c.salt,
           passwordResetToken := none,
           passwordResetExpires := none,
           updatedAt := c.now }

/-- The document `confirmEmail` writes for the account `u`: the flag set, the
confirmation token cleared, `updatedAt` refreshed. -/
def confirmedDocument (c : Ctx) (u : User) : User :=
  { u with isEmailConfirmed := true, emailConfirmationToken := none, updatedAt := c.now }

/-- The reply of `confirmEmail` to a token that selects no account. -/
def confirmationInvalid : Response :=
  { status := 400, body := failure "Invalid or expired confirmation token" }

/-- The account `carol` holding the reset token `T` until time `e`. -/
def carolWithReset (T : String) (e : Nat) : User :=
  { carol with passwordResetToken := some T, passwordResetExpires := some e }

/-- The reply of `requestPasswordReset` on both of its successful paths. -/
def resetRequested : Response :=
  { status := 200,
    body := success "If an account with that email exists, a password reset link has been sent." }

/-- The keys that `toJSON` deletes. -/
def secretKeys : List String :=
  ["password", "emailConfirmationToken", "passwordResetToken", "passwordResetExpires"]

/-! ## Lookup lemmas -/

theorem findOne_some_mem {store : Store} {filter : User → Bool} {u : User}
    (h : findOne store filter = some u) : u ∈ store ∧ filter u = true := by
  unfold findOne at h
  exact ⟨List.mem_of_find?_eq_some h, List.find?_some h⟩

theorem findOne_eq_none {store : Store} {filter : User → Bool} :
    findOne store filter = none ↔ ∀ u ∈ store, filter u = false := by
  unfold findOne
  simp [List.find?_eq_none]

theorem findById_cast {c : Ctx} {store : Store} {id oid : String}
    (h : c.lib.castObjectId id = some oid) :
    findById c store id = Except.ok (findOne store (fun u => u._id == oid)) := by
  unfold findById
  rw [h]

theorem findById_cast_error {c : Ctx} {store : Store} {id : String}
    (h : c.lib.castObjectId id = none) :
    findById c store id = Except.error QueryError.CastError := by
  unfold findById
  rw [h]

theorem findById_some_id {c : Ctx} {store : Store} {id : String} {u : User}
    (h : findById c store id = Except.ok (some u)) :
    u ∈ store ∧ c.lib.castObjectId id = some u._id := by
  cases hc : c.lib.castObjectId id with
  | none =>
    rw [findById_cast_error hc] at h
    exact absurd h (by simp)
  | some oid =>
    rw [findById_cast hc] at h
    have h2 := findOne_some_mem (Except.ok.inj h)
    have hid : u._id = oid := by simpa using h2.2
    exact ⟨h2.1, by rw [hid]⟩

/-! ## Registration and login -/

/-- C1 (the code departs from the claim): a registration that passed
validation, whose email selects no account in the lookup of `register` but
whose username (as stored, trimmed) is already the username of an account, is
not answered with 409. The lookup is made on the email alone, `save` then
fails (on the unique index of `username`, if not earlier), and the handler
answers 500 "Internal server error during registration". No account is
created. -/
theorem register_taken_username_answers_500 (c : Ctx) (store : Store) (req : RegisterRequest)
    (hreq : req.errors = []) (hemail : findByEmailOrUsername c store req.email = none)
    (v : User) (hv : v ∈ store) (hname : v.username = c.lib.trim req.username) :
    (register c store req).response
      = { status := 500, body := failure "Internal server error during registration" } ∧
    (register c store req).response.status ≠ 409 ∧
    (register c store req).store = store ∧
    (register c store req).mail = none := by
  have hdup : ∀ doc : User, doc.username = c.lib.trim req.username →
      duplicatesKey store doc = true := by
    intro doc hdoc
    unfold duplicatesKey
    rw [List.any_eq_true]
    exact ⟨v, hv, by simp [hname, hdoc]⟩
  have hsave : ∀ doc : User, doc.username = c.lib.trim req.username →
      ∃ e, save c store doc true true = Except.error e := by
    intro doc hdoc
    unfold save
    by_cases hval : validateDocument doc = true
    · refine ⟨SaveError.DuplicateKey, ?_⟩
      simp only [hval, Bool.not_true, Bool.false_eq_true, if_false, if_true]
      rw [if_pos (hdup _ (by exact hdoc))]
    · refine ⟨SaveError.ValidationError, ?_⟩
      simp [hval]
  obtain ⟨e, he⟩ := hsave (generateEmailConfirmationToken c
    (newUser c req.username req.email req.password)).1 rfl
  have hreg : register c store req
      = { store := store,
          response := { status := 500, body := failure "Internal server error during registration" },
          mail := none } := by
    unfold register
    simp only [hreq, hemail, List.isEmpty_nil, Bool.not_true, Bool.false_eq_true, if_false]
    rw [he]
  rw [hreg]
  simp

/-- Witness of C1: `alice` is registered; a registration that reuses the
username `alice` with the unused email `bob@x.com` is answered 500. -/
theorem register_taken_username_answers_500_witness :
    findByEmailOrUsername (refCtx 5000) [alice] "bob@x.com" = none ∧
    alice.username = refTrim "alice" ∧
    (register (refCtx 5000) [alice]
        { errors := [], username := "alice", email := "bob@x.com", password := "Passw0rd1" }).response
      = { status := 500, body := failure "Internal server error during registration" } :=
  ⟨by decide, by decide,
    (register_taken_username_answers_500 (refCtx 5000) [alice]
      { errors := [], username := "alice", email := "bob@x.com", password := "Passw0rd1" }
      rfl (by decide) alice (by decide) (by decide)).1⟩

/-- Registration with an email that is already used (compared in lower case)
is answered with 409 and leaves the collection as it was. -/
theorem register_taken_email_conflict (c : Ctx) (store : Store) (req : RegisterRequest)
    (hreq : req.errors = []) (u : User) (hu : u ∈ store)
    (hemail : u.email = c.lib.toLowerCase req.email) :
    (register c store req).response
      = { status := 409, body := failure "User already exists with this email or username" } ∧
    (register c store req).store = store := by
  have hne : findByEmailOrUsername c store req.email ≠ none := by
    intro hnone
    have := (findOne_eq_none.mp hnone) u hu
    simp [emailOrUsernameFilter, hemail] at this
  unfold register
  cases hf : findByEmailOrUsername c store req.email with
  | none => exact absurd hf hne
  | some v => simp [hreq]

/-- C2: for a request that passed validation, `login` returns a bearer token
exactly when the lookup by lower-cased email or by username selects an account,
the password verifies against that account's hash and that account's email is
confirmed; the token is the one `generateToken` signs for that account. When
the account is selected and the password verifies but the email is not
confirmed, the answer is 401 "Please confirm your email before logging in" and
carries no token. The lookup selects an account of the collection that matches
the identifier, and selects none only when no account matches; when at most one
account of the collection matches the identifier, a token is returned exactly
when some account of the collection matches it, verifies the password and is
confirmed. -/
theorem login_token_iff (c : Ctx) (store : Store) (req : LoginRequest)
    (hreq : req.errors = []) :
    ((∃ token, (login c store req).token = some token) ↔
      ∃ u, findByEmailOrUsername c store req.identifier = some u ∧
        comparePassword c u req.password = true ∧ u.isEmailConfirmed = true) ∧
    (∀ u, findByEmailOrUsername c store req.identifier = some u →
        comparePassword c u req.password = true → u.isEmailConfirmed = true →
        (login c store req).status = 200 ∧
        (login c store req).token = some (generateToken c u._id)) ∧
    (∀ u, findByEmailOrUsername c store req.identifier = some u →
        comparePassword c u req.password = true → u.isEmailConfirmed = false →
        login c store req
          = { status := 401, body := failure "Please confirm your email before logging in" } ∧
        (login c store req).token = none) ∧
    (∀ u, findByEmailOrUsername c store req.identifier = some u →
        u ∈ store ∧ (u.email = c.lib.toLowerCase req.identifier ∨ u.username = req.identifier)) ∧
    (findByEmailOrUsername c store req.identifier = none ↔
        ∀ u ∈ store, ¬ (u.email = c.lib.toLowerCase req.identifier ∨ u.username = req.identifier)) ∧
    ((∀ u ∈ store, ∀ v ∈ store, emailOrUsernameFilter c req.identifier u = true →
        emailOrUsernameFilter c req.identifier v = true → u = v) →
      ((∃ token, (login c store req).token = some token) ↔
        ∃ u ∈ store, (u.email = c.lib.toLowerCase req.identifier ∨ u.username = req.identifier) ∧
          comparePassword c u req.password = true ∧ u.isEmailConfirmed = true)) := by
  have hiff : (∃ token, (login c store req).token = some token) ↔
      ∃ u, findByEmailOrUsername c store req.identifier = some u ∧
        comparePassword c u req.password = true ∧ u.isEmailConfirmed = true := by
    unfold login
    cases hf : findByEmailOrUsername c store req.identifier with
    | none => simp [hreq, Response.token, failure]
    | some u =>
      cases hp : comparePassword c u req.password <;> cases hc : u.isEmailConfirmed <;>
        simp [hreq, hp, hc, Response.token, failure]
  refine ⟨hiff, ?_, ?_, ?_, ?_, ?_⟩
  · intro u hf hp hc
    simp [login, hreq, hf, hp, hc, Response.token]
  · intro u hf hp hc
    simp [login, hreq, hf, hp, hc, Response.token, failure]
  · intro u hf
    have h := findOne_some_mem hf
    exact ⟨h.1, by simpa [emailOrUsernameFilter] using h.2⟩
  · unfold findByEmailOrUsername
    rw [findOne_eq_none]
    simp [emailOrUsernameFilter]
  · intro huniq
    rw [hiff]
    constructor
    · rintro ⟨u, hf, hp, hc⟩
      have h := findOne_some_mem hf
      exact ⟨u, h.1, by simpa [emailOrUsernameFilter] using h.2, hp, hc⟩
    · rintro ⟨u, hu, hm, hp, hc⟩
      have hmu : emailOrUsernameFilter c req.identifier u = true := by
        simpa [emailOrUsernameFilter] using hm
      cases hf : findByEmailOrUsername c store req.identifier with
      | none =>
        have := (findOne_eq_none.mp hf) u hu
        rw [hmu] at this
        exact absurd this (by decide)
      | some w =>
        have hw := findOne_some_mem hf
        have hwu : w = u := huniq w hw.1 u hu hw.2 hmu
        exact ⟨w, rfl, by rw [hwu]; exact hp, by rw [hwu]; exact hc⟩

/-- Witness of C2: a login of the unconfirmed account `carol` by username, and a
login of the confirmed account `alice` by her email written in upper case,
which matches no stored email or username as written and selects `alice` by its
lower-cased form. -/
theorem login_token_iff_witness :
    (({ errors := [], identifier := "carol", password := "Secr3t" } : LoginRequest).errors = []) ∧
    findByEmailOrUsername (refCtx 5000) [alice, carol] "carol" = some carol ∧
    login (refCtx 5000) [alice, carol] { errors := [], identifier := "carol", password := "Secr3t" }
      = { status := 401, body := failure "Please confirm your email before logging in" } ∧
    (∀ u ∈ [alice, carol], u.email ≠ "ALICE@X.COM" ∧ u.username ≠ "ALICE@X.COM") ∧
    findByEmailOrUsername (refCtx 5000) [alice, carol] "ALICE@X.COM" = some alice ∧
    (login (refCtx 5000) [alice, carol]
      { errors := [], identifier := "ALICE@X.COM", password := "Passw0rd1" }).status = 200 ∧
    (login (refCtx 5000) [alice, carol]
      { errors := [], identifier := "ALICE@X.COM", password := "Passw0rd1" }).token
        = some (generateToken (refCtx 5000) alice._id) :=
  ⟨rfl, by decide,
    ((login_token_iff (refCtx 5000) [alice, carol]
      { errors := [], identifier := "carol", password := "Secr3t" } rfl).2.2.1
        carol (by decide) (by decide) (by decide)).1,
    by decide, by decide,
    (login_token_iff (refCtx 5000) [alice, carol]
      { errors := [], identifier := "ALICE@X.COM", password := "Passw0rd1" } rfl).2.1
        alice (by decide) (by decide) (by decide)⟩

/-- C3: for requests that passed validation, a login whose identifier selects
no account and a login whose identifier selects an account whose password does
not verify receive the same response, 401 with the body
`{ success: false, message: 'Invalid credentials' }`, whatever the identifiers
and whether or not the selected account is confirmed. -/
theorem login_bad_credentials_identical (c : Ctx) (store : Store) (r1 r2 : LoginRequest)
    (h1 : r1.errors = []) (h2 : r2.errors = [])
    (hunknown : findByEmailOrUsername c store r1.identifier = none)
    (u : User) (hknown : findByEmailOrUsername c store r2.identifier = some u)
    (hwrong : comparePassword c u r2.password = false) :
    login c store r1 = login c store r2 ∧
    login c store r1 = { status := 401, body := failure "Invalid credentials" } ∧
    (login c store r1).body.success = false ∧
    (login c store r1).body.message = "Invalid credentials" := by
  have e1 : login c store r1 = { status := 401, body := failure "Invalid credentials" } := by
    simp [login, h1, hunknown]
  have e2 : login c store r2 = { status := 401, body := failure "Invalid credentials" } := by
    simp [login, h2, hknown, hwrong]
  rw [e1, e2]
  simp [failure]

/-- Witness of C3: an unknown identifier against a wrong password for the
confirmed account `alice`. -/
theorem login_bad_credentials_identical_witness :
    login (refCtx 5000) [alice, carol] { errors := [], identifier := "mallory", password := "x" }
      = login (refCtx 5000) [alice, carol]
          { errors := [], identifier := "alice", password := "wrong" } :=
  (login_bad_credentials_identical (refCtx 5000) [alice, carol]
    { errors := [], identifier := "mallory", password := "x" }
    { errors := [], identifier := "alice", password := "wrong" }
    rfl rfl (by decide) alice (by decide) (by decide)).1

/-! ## The authentication middleware -/

/-- The header test of `authenticate` and `optionalAuth`:
`!authHeader || !authHeader.startsWith('Bearer ')`. -/
theorem header_test (s : String) :
    (decide (s = "") || !startsWith s "Bearer ") = !startsWith s "Bearer " := by
  by_cases h : s = ""
  · subst h; decide
  · simp [h]

/-- Behaviour of `authenticate` on a header that does not start with `Bearer `. -/
theorem authenticate_no_bearer (c : Ctx) (store : Store) (s : String)
    (hs : startsWith s "Bearer " = false) :
    authenticate c store (some s)
      = Outcome.respond { status := 401, body := failure "Access denied. No token provided." } := by
  have ht : (decide (s = "") || !startsWith s "Bearer ") = true := by
    rw [header_test, hs]; rfl
  unfold authenticate
  simp only []
  rw [if_pos ht]

/-- Behaviour of `authenticate` on a header that starts with `Bearer `: the part of the
handler after the header test. -/
theorem authenticate_bearer (c : Ctx) (store : Store) (s : String)
    (hs : startsWith s "Bearer " = true) :
    authenticate c store (some s) =
      match c.lib.jwtVerify (substring s 7) (jwtSecret c.env) c.now with
      | Except.ok decoded =>
        match findById c store decoded.userId with
        | Except.error _ =>
          Outcome.respond
            { status := 500, body := failure "Internal server error during authentication" }
        | Except.ok none =>
          Outcome.respond { status := 401, body := failure "Token is no longer valid" }
        | Except.ok (some user) =>
          if !user.isEmailConfirmed then
            Outcome.respond
              { status := 401, body := failure "Please confirm your email to access this resource" }
          else Outcome.next (some (principalOf user))
      | Except.error JwtErrorName.JsonWebTokenError =>
        Outcome.respond { status := 401, body := failure "Invalid token" }
      | Except.error JwtErrorName.TokenExpiredError =>
        Outcome.respond { status := 401, body := failure "Token expired" }
      | Except.error _ =>
        Outcome.respond
          { status := 500, body := failure "Internal server error during authentication" } := by
  have ht : ¬ (decide (s = "") || !startsWith s "Bearer ") = true := by
    rw [header_test, hs]; decide
  unfold authenticate
  simp only []
  rw [if_neg ht]

/-- The decisions of `authenticate` on a request whose token does not fail
verification and whose subject casts to an `ObjectId`. Without an
`Authorization` header, or with one that does not start with `Bearer `, it
answers 401 "Access denied. No token provided.", whatever the rest of the
request. Otherwise, with `decoded` the verified payload and `oid` the id that
`decoded.userId` casts to: if no account has the id `oid` it answers 401 "Token
is no longer valid"; else if the account's `isEmailConfirmed` is false it
answers 401 "Please confirm your email to access this resource"; else it calls
`next` with the principal whose four fields `userId`, `username`, `email` and
`role` are the loaded account's. Each rejection is then a response of status
401: `next` is not called and no principal is attached. -/
theorem authenticate_decides (c : Ctx) (store : Store) :
    authenticate c store none
      = Outcome.respond { status := 401, body := failure "Access denied. No token provided." } ∧
    (∀ s, startsWith s "Bearer " = false →
      authenticate c store (some s)
        = Outcome.respond { status := 401, body := failure "Access denied. No token provided." }) ∧
    (∀ s decoded oid, startsWith s "Bearer " = true →
      c.lib.jwtVerify (substring s 7) (jwtSecret c.env) c.now = Except.ok decoded →
      c.lib.castObjectId decoded.userId = some oid →
      ((∀ u ∈ store, u._id ≠ oid) →
        authenticate c store (some s)
          = Outcome.respond { status := 401, body := failure "Token is no longer valid" }) ∧
      (∀ u, findById c store decoded.userId = Except.ok (some u) →
        u ∈ store ∧ u._id = oid ∧
        (u.isEmailConfirmed = false →
          authenticate c store (some s)
            = Outcome.respond
                { status := 401,
                  body := failure "Please confirm your email to access this resource" }) ∧
        (u.isEmailConfirmed = true →
          authenticate c store (some s)
            = Outcome.next (some { userId := u._id, username := u.username,
                                   email := u.email, role := u.role }))) ∧
      ((∀ u ∈ store, u._id ≠ oid) ∨
        ∃ u, findById c store decoded.userId = Except.ok (some u)) ∧
      (∀ r, authenticate c store (some s) = Outcome.respond r → r.status = 401)) := by
  refine ⟨rfl, ?_, ?_⟩
  · intro s hs
    exact authenticate_no_bearer c store s hs
  · intro s decoded oid hs hv hcast
    rw [authenticate_bearer c store s hs, hv]
    have hfb := @findById_cast c store decoded.userId oid hcast
    have hnone : (∀ u ∈ store, u._id ≠ oid) →
        findById c store decoded.userId = Except.ok none := by
      intro h
      rw [hfb]
      congr 1
      rw [findOne_eq_none]
      intro u hu
      simpa using h u hu
    refine ⟨?_, ?_, ?_, ?_⟩
    · intro h
      simp [hnone h]
    · intro u hf
      have hid := findById_some_id hf
      have hoid : u._id = oid := by
        have := hid.2
        rw [hcast] at this
        exact (Option.some.inj this).symm
      refine ⟨hid.1, hoid, ?_, ?_⟩
      · intro hc
        simp [hf, hc]
      · intro hc
        simp [hf, hc, principalOf]
    · cases hf : findOne store (fun u => u._id == oid) with
      | none =>
        left
        intro u hu
        have := (findOne_eq_none.mp hf) u hu
        simpa using this
      | some u =>
        right
        exact ⟨u, by rw [hfb, hf]⟩
    · intro r hr
      simp only [hfb] at hr
      cases hf : findOne store (fun u => u._id == oid) with
      | none =>
        simp [hf] at hr
        rw [← hr]
      | some u =>
        cases hc : u.isEmailConfirmed with
        | false =>
          simp [hf, hc] at hr
          rw [← hr]
        | true =>
          simp [hf, hc] at hr

/-- Example of the decisions of `authenticate`: `alice` presents her token at
second 5. -/
theorem authenticate_decides_example :
    startsWith ("Bearer " ++ aliceToken) "Bearer " = true ∧
    authenticate (refCtx 5000) [alice, carol] (some ("Bearer " ++ aliceToken))
      = Outcome.next (some { userId := alice._id, username := alice.username,
                             email := alice.email, role := alice.role }) :=
  ⟨by decide,
    (((authenticate_decides (refCtx 5000) [alice, carol]).2.2 ("Bearer " ++ aliceToken)
      { userId := "64b000000000000000000001", iat := 1, exp := 9 } "64b000000000000000000001"
      (by decide) (by rfl) (by decide)).2.1 alice (by rfl)).2.2.2 (by decide)⟩

/-- C4 (the code departs from the claim): when the token of the request
verifies but its subject does not cast to an `ObjectId` (such as `abc`, in a
token signed with the secret), `User.findById` throws `CastError`, which the
`catch` of `authenticate` does not name: the answer is 500 "Internal server
error during authentication", not the 401 "Token is no longer valid" of a
subject that no account has. -/
theorem authenticate_cast_error_answers_500 (c : Ctx) (store : Store) (s : String)
    (decoded : Decoded) (hs : startsWith s "Bearer " = true)
    (hv : c.lib.jwtVerify (substring s 7) (jwtSecret c.env) c.now = Except.ok decoded)
    (hcast : c.lib.castObjectId decoded.userId = none) :
    authenticate c store (some s)
      = Outcome.respond
          { status := 500, body := failure "Internal server error during authentication" } ∧
    authenticate c store (some s)
      ≠ Outcome.respond { status := 401, body := failure "Token is no longer valid" } := by
  have h : authenticate c store (some s)
      = Outcome.respond
          { status := 500, body := failure "Internal server error during authentication" } := by
    rw [authenticate_bearer c store s hs, hv]
    simp only [findById_cast_error hcast]
  rw [h]
  exact ⟨rfl, by simp [failure]⟩

/-- Witness of C4: a token signed with the fallback secret whose subject is
`abc`, an id that no account has, presented at second 5. -/
theorem authenticate_cast_error_answers_500_witness :
    refVerify (substring ("Bearer " ++ badIdToken) 7) "fallback-secret-key" 5000
      = Except.ok { userId := "abc", iat := 1, exp := 9 } ∧
    refCastObjectId "abc" = none ∧
    (∀ u ∈ [alice, carol], u._id ≠ "abc") ∧
    authenticate (refCtx 5000) [alice, carol] (some ("Bearer " ++ badIdToken))
      = Outcome.respond
          { status := 500, body := failure "Internal server error during authentication" } :=
  ⟨by rfl, by decide, by decide,
    (authenticate_cast_error_answers_500 (refCtx 5000) [alice, carol] ("Bearer " ++ badIdToken)
      { userId := "abc", iat := 1, exp := 9 } (by decide) (by rfl) (by decide)).1⟩

/-- A verification failure named `JsonWebTokenError` (a signature that does not
verify, a malformed token) is answered 401 "Invalid token", and one named
`TokenExpiredError` is answered 401 "Token expired". -/
theorem authenticate_invalid_or_expired (c : Ctx) (store : Store) (s : String)
    (hs : startsWith s "Bearer " = true) :
    (c.lib.jwtVerify (substring s 7) (jwtSecret c.env) c.now
        = Except.error JwtErrorName.JsonWebTokenError →
      authenticate c store (some s)
        = Outcome.respond { status := 401, body := failure "Invalid token" }) ∧
    (c.lib.jwtVerify (substring s 7) (jwtSecret c.env) c.now
        = Except.error JwtErrorName.TokenExpiredError →
      authenticate c store (some s)
        = Outcome.respond { status := 401, body := failure "Token expired" }) := by
  constructor <;> intro hv <;> rw [authenticate_bearer c store s hs, hv]

/-- C5 (the code departs from the claim): when the verification of the
presented bearer token fails with the error named `NotBeforeError` (a correctly
signed token whose `nbf` claim lies in the future), `authenticate` answers with
status 500, "Internal server error during authentication", and not with 401:
its `catch` recognises only the names `JsonWebTokenError` and
`TokenExpiredError`. -/
theorem authenticate_not_before_answers_500 (c : Ctx) (store : Store) (s : String)
    (hs : startsWith s "Bearer " = true)
    (hv : c.lib.jwtVerify (substring s 7) (jwtSecret c.env) c.now
      = Except.error JwtErrorName.NotBeforeError) :
    authenticate c store (some s)
      = Outcome.respond
          { status := 500, body := failure "Internal server error during authentication" } := by
  rw [authenticate_bearer c store s hs, hv]

/-- Witness of C5: the token `earlyToken` presented at second 5. -/
theorem authenticate_not_before_answers_500_witness :
    startsWith ("Bearer " ++ earlyToken) "Bearer " = true ∧
    refVerify (substring ("Bearer " ++ earlyToken) 7) "fallback-secret-key" 5000
      = Except.error JwtErrorName.NotBeforeError ∧
    authenticate (refCtx 5000) [alice, carol] (some ("Bearer " ++ earlyToken))
      = Outcome.respond
          { status := 500, body := failure "Internal server error during authentication" } :=
  ⟨by decide, by rfl,
    authenticate_not_before_answers_500 (refCtx 5000) [alice, carol] ("Bearer " ++ earlyToken)
      (by decide) (by rfl)⟩

/-! ## Session tokens -/

theorem startsWith_bearer (t : String) : startsWith ("Bearer " ++ t) "Bearer " = true := by
  simp [startsWith, String.data_append]

theorem substring_bearer (t : String) : substring ("Bearer " ++ t) 7 = t := by
  simp [substring, String.data_append]

theorem dropWhile_replicate (c : Char) (hc : c ≠ '.') (n : Nat) (rest : List Char) :
    (List.replicate n c ++ '.' :: rest).dropWhile (fun d => d == c) = '.' :: rest := by
  have hdot : ('.' == c) = false := by simpa using fun h => hc h.symm
  induction n with
  | zero => simp [List.dropWhile, hdot]
  | succ n ih => simp [List.replicate_succ, List.dropWhile, ih]

theorem takeWhile_replicate (c : Char) (hc : c ≠ '.') (n : Nat) (rest : List Char) :
    ((List.replicate n c ++ '.' :: rest).takeWhile (fun d => d == c)).length = n := by
  have hdot : ('.' == c) = false := by simpa using fun h => hc h.symm
  induction n with
  | zero => simp [List.takeWhile, hdot]
  | succ n ih => simp [List.replicate_succ, List.takeWhile, hdot]

theorem takeUnary_replicate (c : Char) (hc : c ≠ '.') (n : Nat) (rest : List Char) :
    takeUnary c (List.replicate n c ++ '.' :: rest) = some (n, rest) := by
  unfold takeUnary
  rw [dropWhile_replicate c hc, takeWhile_replicate c hc]
  simp

theorem refDecode_refEncode (j : Jws) : refDecode (refEncode j) = some j := by
  unfold refDecode refEncode
  simp only [takeUnary_replicate 'i' (by decide), takeUnary_replicate 'e' (by decide),
    takeUnary_replicate 'n' (by decide), takeUnary_replicate 'u' (by decide)]
  have hl : j.userId.length = j.userId.data.length := rfl
  have hlen : ¬ (j.userId.data ++ j.key.data).length < j.userId.length := by
    rw [hl, List.length_append]; omega
  rw [if_neg hlen]
  have h1 : (j.userId.data ++ j.key.data).take j.userId.length = j.userId.data := by
    rw [hl]; exact List.take_left' rfl
  have h2 : (j.userId.data ++ j.key.data).drop j.userId.length = j.key.data := by
    rw [hl]; exact List.drop_left' rfl
  rw [h1, h2]

/-- The reference libraries satisfy the contract. -/
theorem refLib_lawful : Lawful refLib refTimespan where
  seven_days := by decide
  verify_sign := by
    intro userId secret expiresIn t0 t ht
    show refVerify (refSign userId secret expiresIn t0) secret t = _
    unfold refVerify refSign
    rw [refDecode_refEncode]
    have h2 : ¬ (t0 / 1000 + refTimespan expiresIn ≤ t / 1000) := by omega
    simp [h2]
  verify_expired := by
    intro userId secret expiresIn t0 t ht
    show refVerify (refSign userId secret expiresIn t0) secret t = _
    unfold refVerify refSign
    rw [refDecode_refEncode]
    simp [ht]

/-- The token of a successful login is the one `generateToken` signs for the
selected account, which is confirmed. -/
theorem login_token_source (c : Ctx) (store : Store) (req : LoginRequest) (token : String)
    (h : (login c store req).token = some token) :
    ∃ u, findByEmailOrUsername c store req.identifier = some u ∧ u.isEmailConfirmed = true ∧
      token = generateToken c u._id := by
  unfold login at h
  by_cases he : req.errors.isEmpty = true
  · cases hf : findByEmailOrUsername c store req.identifier with
    | none => simp [he, hf, Response.token, failure] at h
    | some u =>
      cases hp : comparePassword c u req.password <;> cases hc : u.isEmailConfirmed <;>
        simp [he, hf, hp, hc, Response.token, failure] at h
      exact ⟨u, rfl, hc, h.symm⟩
  · simp [he, Response.token, validationFailed] at h

/-- C6: let the library meet the contract `Lawful`, and let a token be issued by
`generateToken` for `id` at time `c0.now` and checked at time `c.now` by the
same process (same library, same environment), before its expiry
(`c.now / 1000` below `exp = c0.now / 1000 + timespan (JWT_EXPIRES_IN || '7d')`,
which is issuance plus 604800 seconds when `JWT_EXPIRES_IN` is unset). Then
`verifyToken` returns the payload with `userId = id`; the verification step of
`authenticate`, applied to what follows `Bearer ` in the header, returns the
same payload; and the token of a successful `login` makes `authenticate`, run
against any collection in which the account's id still designates a confirmed
account, call `next` with a principal whose `userId` is the id that the
account's id casts to: that account's id, the cast of the rendering of an
`ObjectId` being that `ObjectId`. -/
theorem generateToken_verifies (timespan : String → Nat) (c0 c : Ctx)
    (hL : Lawful c0.lib timespan) (hlib : c.lib = c0.lib) (henv : c.env = c0.env)
    (ht : c.now / 1000 < c0.now / 1000 + timespan (orElse c0.env.JWT_EXPIRES_IN "7d")) :
    (∀ id, verifyToken c (generateToken c0 id)
      = Except.ok { userId := id, iat := c0.now / 1000,
                    exp := c0.now / 1000 + timespan (orElse c0.env.JWT_EXPIRES_IN "7d") }) ∧
    (∀ id, c.lib.jwtVerify (substring ("Bearer " ++ generateToken c0 id) 7) (jwtSecret c.env) c.now
      = Except.ok { userId := id, iat := c0.now / 1000,
                    exp := c0.now / 1000 + timespan (orElse c0.env.JWT_EXPIRES_IN "7d") }) ∧
    (c0.env.JWT_EXPIRES_IN = none →
      c0.now / 1000 + timespan (orElse c0.env.JWT_EXPIRES_IN "7d")
        = c0.now / 1000 + 7 * 24 * 60 * 60) ∧
    (∀ store0 req token, (login c0 store0 req).token = some token →
      ∃ u0, findByEmailOrUsername c0 store0 req.identifier = some u0 ∧
        ∀ store u, findById c store u0._id = Except.ok (some u) → u.isEmailConfirmed = true →
          authenticate c store (some ("Bearer " ++ token)) = Outcome.next (some (principalOf u)) ∧
          c.lib.castObjectId u0._id = some (principalOf u).userId ∧
          (c.lib.castObjectId u0._id = some u0._id → (principalOf u).userId = u0._id)) := by
  have hv : ∀ id, c.lib.jwtVerify (generateToken c0 id) (jwtSecret c.env) c.now
      = Except.ok { userId := id, iat := c0.now / 1000,
                    exp := c0.now / 1000 + timespan (orElse c0.env.JWT_EXPIRES_IN "7d") } := by
    intro id
    rw [hlib, henv]
    exact hL.verify_sign id (jwtSecret c0.env) (orElse c0.env.JWT_EXPIRES_IN "7d") c0.now c.now ht
  refine ⟨?_, ?_, ?_, ?_⟩
  · intro id
    unfold verifyToken
    rw [hv id]
  · intro id
    rw [substring_bearer]
    exact hv id
  · intro hnone
    rw [hnone]
    show c0.now / 1000 + timespan "7d" = _
    rw [hL.seven_days]
  · intro store0 req token hlogin
    obtain ⟨u0, hf, _, htok⟩ := login_token_source c0 store0 req token hlogin
    refine ⟨u0, hf, ?_⟩
    intro store u hfind hconf
    have hid := (findById_some_id hfind).2
    refine ⟨?_, hid, ?_⟩
    · rw [authenticate_bearer c store _ (startsWith_bearer token), substring_bearer, htok,
        hv u0._id]
      simp [hfind, hconf]
    · intro hcanon
      rw [hcanon] at hid
      exact (Option.some.inj hid).symm

/-- Witness of C6: a token issued for `alice` at second 5 and checked at second 9,
with the reference libraries and the default expiry. -/
theorem generateToken_verifies_witness :
    Lawful (refCtx 5000).lib refTimespan ∧
    (refCtx 9000).now / 1000
      < (refCtx 5000).now / 1000 + refTimespan (orElse (refCtx 5000).env.JWT_EXPIRES_IN "7d") ∧
    verifyToken (refCtx 9000) (generateToken (refCtx 5000) alice._id)
      = Except.ok { userId := alice._id, iat := (refCtx 5000).now / 1000,
                    exp := (refCtx 5000).now / 1000
                      + refTimespan (orElse (refCtx 5000).env.JWT_EXPIRES_IN "7d") } :=
  ⟨refLib_lawful, by decide,
    (generateToken_verifies refTimespan (refCtx 5000) (refCtx 9000) refLib_lawful rfl rfl
      (by decide)).1 alice._id⟩

/-! ## Role check and optional authentication -/

/-- C7 (counterexample): on a request to which no principal is attached,
`requireAdmin` does not respond 403: reading `req.user.role` throws, and no
response is sent by the handler. -/
theorem requireAdmin_without_principal_throws :
    requireAdmin none = Outcome.raise "TypeError" ∧
    ¬ ∃ r, requireAdmin none = Outcome.respond r := by
  refine ⟨rfl, ?_⟩
  rintro ⟨r, hr⟩
  simp [requireAdmin] at hr

/-- C7 (amended): `requireAdmin` calls `next` exactly when a principal is
attached and its role is `'admin'`, leaving the principal in place; with a
principal of any other role it responds 403 "Access denied. Admin privileges
required." and does not call `next`; with no principal it does not call `next`
either, and throws instead of responding. Where `requireAdmin` is mounted,
after `authenticate`, a principal is attached whenever control reaches it. -/
theorem requireAdmin_decides (user : Option Principal) :
    ((∃ q, requireAdmin user = Outcome.next q) ↔ ∃ p, user = some p ∧ p.role = "admin") ∧
    (∀ p, user = some p → p.role = "admin" → requireAdmin user = Outcome.next (some p)) ∧
    (∀ p, user = some p → p.role ≠ "admin" →
      requireAdmin user
        = Outcome.respond
            { status := 403, body := failure "Access denied. Admin privileges required." }) ∧
    (user = none → requireAdmin user = Outcome.raise "TypeError") ∧
    (∀ (c : Ctx) (store : Store) (h : Option String) (q : Option Principal),
      authenticate c store h = Outcome.next q → ∃ p, q = some p) := by
  refine ⟨?_, ?_, ?_, ?_, ?_⟩
  · cases user with
    | none => simp [requireAdmin]
    | some p =>
      by_cases hr : p.role = "admin" <;> simp [requireAdmin, hr]
  · intro p hp hr
    subst hp
    simp [requireAdmin, hr]
  · intro p hp hr
    subst hp
    simp [requireAdmin, hr]
  · intro hnone
    subst hnone
    rfl
  · intro c store h q hq
    cases h with
    | none => simp [authenticate] at hq
    | some s =>
      cases hs : startsWith s "Bearer " with
      | false => rw [authenticate_no_bearer c store s hs] at hq; simp at hq
      | true =>
        rw [authenticate_bearer c store s hs] at hq
        cases hv : c.lib.jwtVerify (substring s 7) (jwtSecret c.env) c.now with
        | error e => cases e <;> simp [hv] at hq
        | ok decoded =>
          cases hf : findById c store decoded.userId with
          | error e => simp [hv, hf] at hq
          | ok found =>
            cases found with
            | none => simp [hv, hf] at hq
            | some u =>
              cases hc : u.isEmailConfirmed with
              | false => simp [hv, hf, hc] at hq
              | true =>
                simp [hv, hf, hc] at hq
                exact ⟨principalOf u, hq.symm⟩

/-- Witness of C7 (amended): an administrator passes, `alice` (role `user`) is
refused with 403. -/
theorem requireAdmin_decides_witness :
    requireAdmin (some { userId := "1", username := "root", email := "root@x.com", role := "admin" })
      = Outcome.next (some { userId := "1", username := "root", email := "root@x.com",
                             role := "admin" }) ∧
    requireAdmin (some (principalOf alice))
      = Outcome.respond
          { status := 403, body := failure "Access denied. Admin privileges required." } :=
  ⟨(requireAdmin_decides _).2.1 _ rfl rfl,
   (requireAdmin_decides _).2.2.1 (principalOf alice) rfl (by decide)⟩

/-- Behaviour of `optionalAuth` on a header that does not start with `Bearer `. -/
theorem optionalAuth_no_bearer (c : Ctx) (store : Store) (s : String)
    (hs : startsWith s "Bearer " = false) :
    optionalAuth c store (some s) = Outcome.next none := by
  have ht : (decide (s = "") || !startsWith s "Bearer ") = true := by
    rw [header_test, hs]; rfl
  unfold optionalAuth
  simp only []
  rw [if_pos ht]

/-- Behaviour of `optionalAuth` on a header that starts with `Bearer `. -/
theorem optionalAuth_bearer (c : Ctx) (store : Store) (s : String)
    (hs : startsWith s "Bearer " = true) :
    optionalAuth c store (some s) =
      match c.lib.jwtVerify (substring s 7) (jwtSecret c.env) c.now with
      | Except.ok decoded =>
        match findById c store decoded.userId with
        | Except.error _ => Outcome.next none
        | Except.ok (some user) =>
          if user.isEmailConfirmed then Outcome.next (some (principalOf user))
          else Outcome.next none
        | Except.ok none => Outcome.next none
      | Except.error _ => Outcome.next none := by
  have ht : ¬ (decide (s = "") || !startsWith s "Bearer ") = true := by
    rw [header_test, hs]; decide
  unfold optionalAuth
  simp only []
  rw [if_neg ht]

/-- C8: `optionalAuth` always calls `next` (it never sends a response and no
exception escapes it), and the principal it leaves on the request is the one
`authenticate` attaches to the same request against the same collection when
`authenticate` accepts, and none in every other case. -/
theorem optionalAuth_refines_authenticate (c : Ctx) (store : Store) (h : Option String) :
    optionalAuth c store h = Outcome.next (accepted (authenticate c store h)) ∧
    (∀ p, optionalAuth c store h = Outcome.next (some p) ↔
      authenticate c store h = Outcome.next (some p)) ∧
    ((∀ q, authenticate c store h ≠ Outcome.next q) → optionalAuth c store h = Outcome.next none) ∧
    (∀ r, optionalAuth c store h ≠ Outcome.respond r) ∧
    (∀ name, optionalAuth c store h ≠ Outcome.raise name) := by
  have hopt : optionalAuth c store h = Outcome.next (accepted (authenticate c store h)) := by
    cases h with
    | none => simp [optionalAuth, authenticate, accepted]
    | some s =>
      cases hs : startsWith s "Bearer " with
      | false =>
        rw [optionalAuth_no_bearer c store s hs, authenticate_no_bearer c store s hs]
        simp [accepted]
      | true =>
        rw [optionalAuth_bearer c store s hs, authenticate_bearer c store s hs]
        cases hv : c.lib.jwtVerify (substring s 7) (jwtSecret c.env) c.now with
        | error e => cases e <;> simp [accepted]
        | ok decoded =>
          cases hf : findById c store decoded.userId with
          | error e => simp [accepted, hf]
          | ok found =>
            cases found with
            | none => simp [accepted, hf]
            | some u => cases hc : u.isEmailConfirmed <;> simp [accepted, hf, hc]
  refine ⟨hopt, ?_, ?_, ?_, ?_⟩
  · intro p
    rw [hopt]
    constructor
    · intro hp
      have hacc : accepted (authenticate c store h) = some p := Outcome.next.inj hp
      cases ha : authenticate c store h with
      | respond r => rw [ha] at hacc; simp [accepted] at hacc
      | raise n => rw [ha] at hacc; simp [accepted] at hacc
      | next q => rw [ha] at hacc; simp [accepted] at hacc; rw [hacc]
    · intro hp
      rw [hp]
      rfl
  · intro hrej
    rw [hopt]
    cases ha : authenticate c store h with
    | respond r => rfl
    | raise n => rfl
    | next q => exact absurd ha (hrej q)
  · intro r
    rw [hopt]
    simp
  · intro name
    rw [hopt]
    simp

/-! ## Password reset -/

/-- Behaviour of `resetPassword` when the lookup finds no account. -/
theorem resetPassword_not_found (c : Ctx) (store : Store) (req : ResetPasswordRequest)
    (hreq : req.errors = []) (hnone : findOne store (resetFilter req.token c.now) = none) :
    resetPassword c store req = { store := store, response := tokenInvalid, mail := none } := by
  simp [resetPassword, hreq, hnone, tokenInvalid]

/-- The filter of `resetPassword` on one account. -/
theorem resetFilter_iff (token : String) (now : Nat) (u : User) :
    resetFilter token now u = true ↔
      u.passwordResetToken = some token ∧ ∃ e, u.passwordResetExpires = some e ∧ now < e := by
  unfold resetFilter
  cases he : u.passwordResetExpires with
  | none => simp
  | some e => simp

/-- C9: `generatePasswordResetToken`, run at time `c.now`, sets
`passwordResetToken` to the token it returns and `passwordResetExpires` to
`c.now + 600000`, and changes nothing else. The filter of `resetPassword`,
given that token at time `now`, accepts the account exactly when
`now < c.now + 600000`. In a collection that holds the account and in which no
other account has the same token, the lookup of `resetPassword` finds the
account exactly when `now < c.now + 600000`, and from the expiry instant on a
`resetPassword` with that very token is answered 400 and changes nothing. -/
theorem reset_token_window (c : Ctx) (u : User) :
    (generatePasswordResetToken c u).1
      = { u with passwordResetToken := some (generatePasswordResetToken c u).2,
                 passwordResetExpires := some (c.now + 600000) } ∧
    (∀ now, resetFilter (generatePasswordResetToken c u).2 now (generatePasswordResetToken c u).1
        = true ↔ now < c.now + 600000) ∧
    (∀ (store : Store), (generatePasswordResetToken c u).1 ∈ store →
      (∀ v ∈ store, v.passwordResetToken = some (generatePasswordResetToken c u).2 →
        v = (generatePasswordResetToken c u).1) →
      (∀ now, findOne store (resetFilter (generatePasswordResetToken c u).2 now)
          = some (generatePasswordResetToken c u).1 ↔ now < c.now + 600000) ∧
      (∀ now, c.now + 600000 ≤ now →
        findOne store (resetFilter (generatePasswordResetToken c u).2 now) = none) ∧
      (∀ (c2 : Ctx) (password : String), c.now + 600000 ≤ c2.now →
        resetPassword c2 store
            { errors := [], token := (generatePasswordResetToken c u).2, password := password }
          = { store := store, response := tokenInvalid, mail := none })) := by
  have hfilter : ∀ now, resetFilter (generatePasswordResetToken c u).2 now
      (generatePasswordResetToken c u).1 = true ↔ now < c.now + 600000 := by
    intro now
    simp [resetFilter, generatePasswordResetToken]
  refine ⟨rfl, hfilter, ?_⟩
  intro store hmem huniq
  have hnone : ∀ now, c.now + 600000 ≤ now →
      findOne store (resetFilter (generatePasswordResetToken c u).2 now) = none := by
    intro now hlate
    rw [findOne_eq_none]
    intro v hv
    cases hfv : resetFilter (generatePasswordResetToken c u).2 now v with
    | false => rfl
    | true =>
      have htok := ((resetFilter_iff _ _ _).mp hfv).1
      have hveq := huniq v hv htok
      rw [hveq, hfilter now] at hfv
      omega
  refine ⟨?_, hnone, ?_⟩
  · intro now
    constructor
    · intro hfound
      exact (hfilter now).mp (findOne_some_mem hfound).2
    · intro hearly
      cases hfo : findOne store (resetFilter (generatePasswordResetToken c u).2 now) with
      | none =>
        have := (findOne_eq_none.mp hfo) _ hmem
        rw [(hfilter now).mpr hearly] at this
        exact absurd this (by decide)
      | some v =>
        have hv := findOne_some_mem hfo
        have htok := ((resetFilter_iff _ _ _).mp hv.2).1
        rw [huniq v hv.1 htok]
  · intro c2 password hlate
    exact resetPassword_not_found c2 store _ rfl (hnone c2.now hlate)

/-- Witness of C9: `carol` requests a reset at time 5000; at time 605000, ten
minutes later to the millisecond, her token is refused. -/
theorem reset_token_window_witness :
    carolReset ∈ [alice, carolReset] ∧
    (∀ v ∈ [alice, carolReset],
      v.passwordResetToken = some (generatePasswordResetToken (refCtx 5000) carol).2 →
        v = carolReset) ∧
    (refCtx 5000).now + 600000 ≤ (refCtx 605000).now ∧
    resetPassword (refCtx 605000) [alice, carolReset]
        { errors := [], token := (generatePasswordResetToken (refCtx 5000) carol).2,
          password := "N3wPassword" }
      = { store := [alice, carolReset], response := tokenInvalid, mail := none } :=
  ⟨by decide, by decide, by decide,
    ((reset_token_window (refCtx 5000) carol).2.2 [alice, carolReset] (by decide) (by decide)).2.2
      (refCtx 605000) "N3wPassword" (by decide)⟩

/-- C10: for requests that passed validation, a `resetPassword` whose token no
account holds and a `resetPassword` whose token is held by an account whose
`passwordResetExpires` is not after `Date.now()` (no other account holding that
token) receive the same response, 400 with the body
`{ success: false, message: 'Invalid or expired password reset token' }`, and
both leave the collection exactly as it was. -/
theorem resetPassword_rejects_uniformly (c : Ctx) (store : Store)
    (r1 r2 : ResetPasswordRequest) (h1 : r1.errors = []) (h2 : r2.errors = [])
    (hunknown : ∀ v ∈ store, v.passwordResetToken ≠ some r1.token)
    (hexpired : ∃ u ∈ store, u.passwordResetToken = some r2.token ∧
      (∀ e, u.passwordResetExpires = some e → e ≤ c.now) ∧
      ∀ v ∈ store, v.passwordResetToken = some r2.token → v = u) :
    (resetPassword c store r1).response = (resetPassword c store r2).response ∧
    (resetPassword c store r1).response
      = { status := 400, body := failure "Invalid or expired password reset token" } ∧
    (resetPassword c store r1).store = store ∧
    (resetPassword c store r2).store = store ∧
    (resetPassword c store r1).mail = none ∧
    (resetPassword c store r2).mail = none := by
  have e1 : findOne store (resetFilter r1.token c.now) = none := by
    rw [findOne_eq_none]
    intro v hv
    cases hfv : resetFilter r1.token c.now v with
    | false => rfl
    | true => exact absurd ((resetFilter_iff _ _ _).mp hfv).1 (hunknown v hv)
  have e2 : findOne store (resetFilter r2.token c.now) = none := by
    obtain ⟨u, _, _, hu, huniq⟩ := hexpired
    rw [findOne_eq_none]
    intro v hv
    cases hfv : resetFilter r2.token c.now v with
    | false => rfl
    | true =>
      obtain ⟨htok, e, he, hlt⟩ := (resetFilter_iff _ _ _).mp hfv
      have hveq := huniq v hv htok
      rw [hveq] at he
      have := hu e he
      omega
  rw [resetPassword_not_found c store r1 h1 e1, resetPassword_not_found c store r2 h2 e2]
  simp [tokenInvalid]

/-- Witness of C10: at time 605000 an unknown token and `carol`'s expired token
are refused alike. -/
theorem resetPassword_rejects_uniformly_witness :
    (resetPassword (refCtx 605000) [alice, carolReset]
        { errors := [], token := "ffffffffffffffffffffffffffffffff", password := "N3wPassword" }).response
      = (resetPassword (refCtx 605000) [alice, carolReset]
          { errors := [], token := (generatePasswordResetToken (refCtx 5000) carol).2,
            password := "N3wPassword" }).response :=
  (resetPassword_rejects_uniformly (refCtx 605000) [alice, carolReset]
    { errors := [], token := "ffffffffffffffffffffffffffffffff", password := "N3wPassword" }
    { errors := [], token := (generatePasswordResetToken (refCtx 5000) carol).2,
      password := "N3wPassword" }
    rfl rfl (by decide) ⟨carolReset, by decide, by decide, by decide, by decide⟩).1

/-! ## Writing a stored document -/

theorem findOne_unique {store : Store} {filter : User → Bool} {u : User}
    (hu : u ∈ store) (hf : filter u = true)
    (huniq : ∀ v ∈ store, filter v = true → v = u) : findOne store filter = some u := by
  cases h : findOne store filter with
  | none =>
    have := (findOne_eq_none.mp h) u hu
    rw [hf] at this
    exact absurd this (by decide)
  | some v =>
    have hv := findOne_some_mem h
    rw [huniq v hv.1 hv.2]

/-- Saving a stored document whose password was not modified. -/
theorem save_stored (c : Ctx) (store : Store) (doc : User) :
    save c store doc false false
      = Except.ok (store.map (fun v => if v._id == doc._id then { doc with updatedAt := c.now }
                                        else v),
                   { doc with updatedAt := c.now }) := by
  simp [save]

/-- Saving a stored document whose new password passes the schema validators. -/
theorem save_stored_password (c : Ctx) (store : Store) (doc : User)
    (hp : validatePassword doc.password = true) :
    save c store doc false true
      = Except.ok
          (store.map (fun v => if v._id == doc._id
              then { doc with password := c.lib.bcryptHash doc.password c.salt, updatedAt := c.now }
              else v),
           { doc with password := c.lib.bcryptHash doc.password c.salt, updatedAt := c.now }) := by
  simp [save, hp]

/-- Membership in a collection in which the documents with the `_id` of `d`
were replaced by `d`. -/
theorem mem_replace {store : Store} {d w : User} :
    w ∈ store.map (fun v => if v._id == d._id then d else v) ↔
      (w = d ∧ ∃ v ∈ store, v._id = d._id) ∨ (w ∈ store ∧ w._id ≠ d._id) := by
  rw [List.mem_map]
  constructor
  · rintro ⟨v, hv, hw⟩
    by_cases hid : v._id = d._id
    · simp [hid] at hw
      exact Or.inl ⟨hw.symm, v, hv, hid⟩
    · simp [hid] at hw
      subst hw
      exact Or.inr ⟨hv, hid⟩
  · rintro (⟨hw, v, hv, hid⟩ | ⟨hw, hid⟩)
    · exact ⟨v, hv, by simp [hid, hw]⟩
    · exact ⟨w, hw, by simp [hid]⟩

/-! ## Consuming a reset token -/

/-- C11: let the account `u` of the collection hold the reset token `T`, not
yet expired at `Date.now()`, no other account holding `T`, and let the new
password `p` pass validation. Then `resetPassword(T, p)` answers 200 "Password
reset successfully"; the collection afterwards is the former one with `u`
replaced by the document that has the hash of `p` as password and
`passwordResetToken` and `passwordResetExpires` both null; no account holds `T`
any more; and a further `resetPassword(T, p2)` on that collection, at any time
and with any password, is answered 400 "Invalid or expired password reset
token" and leaves the collection as it is. -/
theorem resetPassword_consumes_token (c : Ctx) (store : Store) (u : User) (T p : String)
    (e : Nat) (hu : u ∈ store) (htok : u.passwordResetToken = some T)
    (hexp : u.passwordResetExpires = some e) (hlive : c.now < e)
    (huniq : ∀ v ∈ store, v.passwordResetToken = some T → v = u)
    (hp : validatePassword p = true) :
    (resetPassword c store { errors := [], token := T, password := p }).response
      = { status := 200, body := success "Password reset successfully" } ∧
    (resetPassword c store { errors := [], token := T, password := p }).store
      = store.map (fun v => if v._id == u._id then resetDocument c u p else v) ∧
    resetDocument c u p ∈ (resetPassword c store { errors := [], token := T, password := p }).store ∧
    (resetDocument c u p).passwordResetToken = none ∧
    (resetDocument c u p).passwordResetExpires = none ∧
    (∀ w ∈ (resetPassword c store { errors := [], token := T, password := p }).store,
      w.passwordResetToken ≠ some T) ∧
    (∀ (c2 : Ctx) (p2 : String),
      resetPassword c2 (resetPassword c store { errors := [], token := T, password := p }).store
          { errors := [], token := T, password := p2 }
        = { store := (resetPassword c store { errors := [], token := T, password := p }).store,
            response := tokenInvalid, mail := none }) := by
  have hfilter : resetFilter T c.now u = true :=
    (resetFilter_iff T c.now u).mpr ⟨htok, e, hexp, hlive⟩
  have hfind : findOne store (resetFilter T c.now) = some u :=
    findOne_unique hu hfilter
      (fun v hv hfv => huniq v hv ((resetFilter_iff T c.now v).mp hfv).1)
  have hsave := save_stored_password c store
    { u with password := p, passwordResetToken := none, passwordResetExpires := none } hp
  have hres : resetPassword c store { errors := [], token := T, password := p }
      = { store := store.map (fun v => if v._id == u._id then resetDocument c u p else v),
          response := { status := 200, body := success "Password reset successfully" },
          mail := none } := by
    unfold resetPassword
    simp only [List.isEmpty_nil, Bool.not_true, Bool.false_eq_true, if_false, hfind]
    rw [hsave]
    rfl
  have hmem : resetDocument c u p
      ∈ store.map (fun v => if v._id == u._id then resetDocument c u p else v) := by
    have : (resetDocument c u p)._id = u._id := rfl
    rw [← this]
    exact mem_replace.mpr (Or.inl ⟨rfl, u, hu, this.symm⟩)
  have hgone : ∀ w ∈ store.map (fun v => if v._id == u._id then resetDocument c u p else v),
      w.passwordResetToken ≠ some T := by
    intro w hw
    have hid : (resetDocument c u p)._id = u._id := rfl
    rw [← hid] at hw
    rcases mem_replace.mp hw with ⟨hwd, _⟩ | ⟨hws, hne⟩
    · rw [hwd]
      simp [resetDocument]
    · intro hwt
      have hwu := huniq w hws hwt
      subst hwu
      exact hne rfl
  rw [hres]
  refine ⟨rfl, rfl, hmem, rfl, rfl, hgone, ?_⟩
  intro c2 p2
  apply resetPassword_not_found c2 _ _ rfl
  rw [findOne_eq_none]
  intro v hv
  cases hfv : resetFilter T c2.now v with
  | false => rfl
  | true => exact absurd ((resetFilter_iff _ _ _).mp hfv).1 (hgone v hv)

/-- Witness of C11: `carol` holds the token `0123456789abcdef0123456789abcdef`
until time 9000 and resets her password at time 5000. -/
theorem resetPassword_consumes_token_witness :
    carolWithReset "0123456789abcdef0123456789abcdef" 9000
      ∈ [alice, carolWithReset "0123456789abcdef0123456789abcdef" 9000] ∧
    (refCtx 5000).now < 9000 ∧
    validatePassword "N3wPassword" = true ∧
    (resetPassword (refCtx 5000) [alice, carolWithReset "0123456789abcdef0123456789abcdef" 9000]
        { errors := [], token := "0123456789abcdef0123456789abcdef",
          password := "N3wPassword" }).response
      = { status := 200, body := success "Password reset successfully" } :=
  ⟨by decide, by decide, by decide,
    (resetPassword_consumes_token (refCtx 5000)
      [alice, carolWithReset "0123456789abcdef0123456789abcdef" 9000]
      (carolWithReset "0123456789abcdef0123456789abcdef" 9000)
      "0123456789abcdef0123456789abcdef" "N3wPassword" 9000
      (by decide) rfl rfl (by decide) (by decide) (by decide)).1⟩

/-! ## Consuming a confirmation token -/

/-- Behaviour of `confirmEmail` when the lookup finds no account. -/
theorem confirmEmail_not_found (c : Ctx) (store : Store) (T : String)
    (hnone : ∀ v ∈ store, v.emailConfirmationToken ≠ some T) :
    confirmEmail c store T = { store := store, response := confirmationInvalid, mail := none } := by
  have hf : findOne store (fun u => u.emailConfirmationToken == some T) = none := by
    rw [findOne_eq_none]
    intro v hv
    simpa using hnone v hv
  simp [confirmEmail, hf, confirmationInvalid]

/-- C12: let the account `u` of the collection hold the confirmation token
`T`, no other account holding `T` or sharing the `_id` of `u`. Then
`confirmEmail(T)` answers 200 "Email confirmed successfully"; the collection
afterwards is the former one with `u` replaced by the document that has
`isEmailConfirmed = true` and `emailConfirmationToken = null` (and a refreshed
`updatedAt`), every other account being kept as it was; and repeating
`confirmEmail(T)` on that collection is answered 400 "Invalid or expired
confirmation token" and changes nothing. A token that no account holds is
answered 400 with the same body and changes nothing. -/
theorem confirmEmail_consumes_token (c : Ctx) (store : Store) (u : User) (T : String)
    (hu : u ∈ store) (htok : u.emailConfirmationToken = some T)
    (huniq : ∀ v ∈ store, v.emailConfirmationToken = some T → v = u)
    (hid : ∀ v ∈ store, v._id = u._id → v = u) :
    (confirmEmail c store T).response
      = { status := 200, body := success "Email confirmed successfully" } ∧
    (confirmEmail c store T).store
      = store.map (fun v => if v._id == u._id then confirmedDocument c u else v) ∧
    confirmedDocument c u ∈ (confirmEmail c store T).store ∧
    (confirmedDocument c u).isEmailConfirmed = true ∧
    (confirmedDocument c u).emailConfirmationToken = none ∧
    (∀ v ∈ store, v ≠ u → v ∈ (confirmEmail c store T).store) ∧
    (∀ w ∈ (confirmEmail c store T).store, w = confirmedDocument c u ∨ (w ∈ store ∧ w ≠ u)) ∧
    (∀ c2 : Ctx, confirmEmail c2 (confirmEmail c store T).store T
      = { store := (confirmEmail c store T).store, response := confirmationInvalid,
          mail := none }) ∧
    (∀ T2, (∀ v ∈ store, v.emailConfirmationToken ≠ some T2) →
      confirmEmail c store T2
        = { store := store, response := confirmationInvalid, mail := none }) := by
  have hfind : findOne store (fun v => v.emailConfirmationToken == some T) = some u :=
    findOne_unique hu (by simp [htok]) (fun v hv hfv => huniq v hv (by simpa using hfv))
  have hsave := save_stored c store
    { u with isEmailConfirmed := true, emailConfirmationToken := none }
  have hres : confirmEmail c store T
      = { store := store.map (fun v => if v._id == u._id then confirmedDocument c u else v),
          response := { status := 200, body := success "Email confirmed successfully" },
          mail := none } := by
    unfold confirmEmail
    simp only [hfind]
    rw [hsave]
    rfl
  have hdid : (confirmedDocument c u)._id = u._id := rfl
  have hmemiff : ∀ w, w ∈ store.map (fun v => if v._id == u._id then confirmedDocument c u else v)
      ↔ (w = confirmedDocument c u ∧ ∃ v ∈ store, v._id = (confirmedDocument c u)._id) ∨
        (w ∈ store ∧ w._id ≠ (confirmedDocument c u)._id) := by
    intro w
    have := @mem_replace store (confirmedDocument c u) w
    rw [hdid] at this
    rw [hdid]
    exact this
  have hgone : ∀ w ∈ store.map (fun v => if v._id == u._id then confirmedDocument c u else v),
      w.emailConfirmationToken ≠ some T := by
    intro w hw
    rcases (hmemiff w).mp hw with ⟨hwd, _⟩ | ⟨hws, hne⟩
    · rw [hwd]
      simp [confirmedDocument]
    · intro hwt
      have hwu := huniq w hws hwt
      subst hwu
      exact hne rfl
  rw [hres]
  refine ⟨rfl, rfl, ?_, rfl, rfl, ?_, ?_, ?_, ?_⟩
  · exact (hmemiff _).mpr (Or.inl ⟨rfl, u, hu, rfl⟩)
  · intro v hv hne
    refine (hmemiff v).mpr (Or.inr ⟨hv, ?_⟩)
    intro hvid
    exact hne (hid v hv hvid)
  · intro w hw
    rcases (hmemiff w).mp hw with ⟨hwd, _⟩ | ⟨hws, hne⟩
    · exact Or.inl hwd
    · refine Or.inr ⟨hws, ?_⟩
      intro hwu
      subst hwu
      exact hne rfl
  · intro c2
    exact confirmEmail_not_found c2 _ T hgone
  · intro T2 hnone
    exact confirmEmail_not_found c store T2 hnone

/-- Witness of C12: `carol` confirms her email with the token she holds. -/
theorem confirmEmail_consumes_token_witness :
    carol ∈ [alice, carol] ∧
    carol.emailConfirmationToken = some "00112233445566778899aabbccddeeff" ∧
    (confirmEmail (refCtx 5000) [alice, carol] "00112233445566778899aabbccddeeff").store
      = [alice, confirmedDocument (refCtx 5000) carol] :=
  ⟨by decide, rfl,
    (confirmEmail_consumes_token (refCtx 5000) [alice, carol] carol
      "00112233445566778899aabbccddeeff" (by decide) rfl (by decide) (by decide)).2.1.trans
      (by decide)⟩

/-! ## The confirmation invariant -/

/-- What a successful `save` of a stored document does to the collection and
to the fields of the confirmation flow. -/
theorem save_stored_ok_spec {c : Ctx} {store s2 : Store} {doc d2 : User} {pm : Bool}
    (h : save c store doc false pm = Except.ok (s2, d2)) :
    d2._id = doc._id ∧ d2.isEmailConfirmed = doc.isEmailConfirmed ∧
    d2.emailConfirmationToken = doc.emailConfirmationToken ∧
    s2 = store.map (fun v => if v._id == d2._id then d2 else v) := by
  cases pm with
  | false =>
    rw [save_stored] at h
    have h2 := Prod.mk.inj (Except.ok.inj h)
    rw [← h2.1, ← h2.2]
    exact ⟨rfl, rfl, rfl, rfl⟩
  | true =>
    by_cases hp : validatePassword doc.password = true
    · rw [save_stored_password c store doc hp] at h
      have h2 := Prod.mk.inj (Except.ok.inj h)
      rw [← h2.1, ← h2.2]
      exact ⟨rfl, rfl, rfl, rfl⟩
    · simp [save, hp] at h

/-- What a successful `save` of a new document does to the collection and to
the fields of the confirmation flow. -/
theorem save_new_ok_spec {c : Ctx} {store s2 : Store} {doc d2 : User}
    (h : save c store doc true true = Except.ok (s2, d2)) :
    d2 = { doc with password := c.lib.bcryptHash doc.password c.salt, updatedAt := c.now } ∧
    s2 = store ++ [d2] ∧ validateDocument doc = true ∧ duplicatesKey store d2 = false := by
  by_cases hv : validateDocument doc = true
  · cases hd : duplicatesKey store
        { doc with password := c.lib.bcryptHash doc.password c.salt, updatedAt := c.now } with
    | true =>
      have : save c store doc true true = Except.error SaveError.DuplicateKey := by
        unfold save
        simp only [hv, Bool.not_true, Bool.false_eq_true, if_false, if_true]
        rw [if_pos (by exact hd)]
      rw [this] at h
      exact absurd h (by simp)
    | false =>
      have : save c store doc true true
          = Except.ok (store ++ [{ doc with password := c.lib.bcryptHash doc.password c.salt,
                                            updatedAt := c.now }],
                       { doc with password := c.lib.bcryptHash doc.password c.salt,
                                  updatedAt := c.now }) := by
        unfold save
        simp only [hv, Bool.not_true, Bool.false_eq_true, if_false, if_true]
        rw [if_neg (by rw [show duplicatesKey store _ = false from hd]; decide)]
      rw [this] at h
      have h2 := Prod.mk.inj (Except.ok.inj h)
      rw [← h2.1, ← h2.2]
      exact ⟨rfl, rfl, hv, hd⟩
  · simp [save, hv] at h

/-- The shape of every operation of `AuthController`: it leaves the collection
as it is, or it saves a stored account `u` as a document with the same `_id`
that keeps a set confirmation flag and, if `u` respects the invariant, respects
it too, or it inserts a document whose confirmation flag is not set. -/
theorem run_shape (c : Ctx) (store : Store) (op : Operation) :
    op.run c store = store ∨
    (∃ u ∈ store, ∃ (d d2 : User) (pm : Bool), d._id = u._id ∧
      (u.isEmailConfirmed = true → d.isEmailConfirmed = true) ∧
      ((u.isEmailConfirmed = true → u.emailConfirmationToken = none) →
        d.isEmailConfirmed = true → d.emailConfirmationToken = none) ∧
      save c store d false pm = Except.ok (op.run c store, d2)) ∨
    (∃ (d d2 : User), d.isEmailConfirmed = false ∧
      save c store d true true = Except.ok (op.run c store, d2)) := by
  cases op with
  | login req => exact Or.inl rfl
  | register req =>
    have hrun : Operation.run c store (Operation.register req) = (register c store req).store :=
      rfl
    rw [hrun]
    by_cases he : (!req.errors.isEmpty) = true
    · exact Or.inl (by simp [register, he])
    · cases hf : findByEmailOrUsername c store req.email with
      | some v => exact Or.inl (by simp [register, he, hf])
      | none =>
        cases hsv : save c store (generateEmailConfirmationToken c
            (newUser c req.username req.email req.password)).1 true true with
        | error e => exact Or.inl (by simp [register, he, hf, hsv])
        | ok r =>
          obtain ⟨s2, d2⟩ := r
          have hstore : (register c store req).store = s2 := by
            cases hm : c.smtpOk <;> simp [register, he, hf, hsv, hm]
          rw [hstore]
          exact Or.inr (Or.inr ⟨(generateEmailConfirmationToken c
            (newUser c req.username req.email req.password)).1, d2, rfl, hsv⟩)
  | confirmEmail token =>
    have hrun : Operation.run c store (Operation.confirmEmail token)
        = (confirmEmail c store token).store := rfl
    rw [hrun]
    cases hf : findOne store (fun u => u.emailConfirmationToken == some token) with
    | none => exact Or.inl (by simp [confirmEmail, hf])
    | some u =>
      cases hsv : save c store { u with isEmailConfirmed := true, emailConfirmationToken := none }
          false false with
      | error e => exact Or.inl (by simp [confirmEmail, hf, hsv])
      | ok r =>
        obtain ⟨s2, d2⟩ := r
        have hstore : (confirmEmail c store token).store = s2 := by
          simp [confirmEmail, hf, hsv]
        rw [hstore]
        exact Or.inr (Or.inl ⟨u, (findOne_some_mem hf).1,
          { u with isEmailConfirmed := true, emailConfirmationToken := none }, d2, false, rfl,
          fun _ => rfl, fun _ _ => rfl, hsv⟩)
  | resendConfirmation req =>
    have hrun : Operation.run c store (Operation.resendConfirmation req)
        = (resendConfirmation c store req).store := rfl
    rw [hrun]
    by_cases he : (!req.errors.isEmpty) = true
    · exact Or.inl (by simp [resendConfirmation, he])
    · cases hf : findOne store (fun u => u.email == c.lib.toLowerCase req.email) with
      | none => exact Or.inl (by simp [resendConfirmation, he, hf])
      | some u =>
        cases hconf : u.isEmailConfirmed with
        | true => exact Or.inl (by simp [resendConfirmation, he, hf, hconf])
        | false =>
          cases hsv : save c store (generateEmailConfirmationToken c u).1 false false with
          | error e => exact Or.inl (by simp [resendConfirmation, he, hf, hconf, hsv])
          | ok r =>
            obtain ⟨s2, d2⟩ := r
            have hstore : (resendConfirmation c store req).store = s2 := by
              cases hm : c.smtpOk <;> simp [resendConfirmation, he, hf, hconf, hsv, hm]
            rw [hstore]
            refine Or.inr (Or.inl ⟨u, (findOne_some_mem hf).1,
              (generateEmailConfirmationToken c u).1, d2, false, rfl, ?_, ?_, hsv⟩)
            · intro h; rw [hconf] at h; exact absurd h (by decide)
            · intro _ h
              have : (generateEmailConfirmationToken c u).1.isEmailConfirmed
                  = u.isEmailConfirmed := rfl
              rw [this, hconf] at h
              exact absurd h (by decide)
  | requestPasswordReset req =>
    have hrun : Operation.run c store (Operation.requestPasswordReset req)
        = (requestPasswordReset c store req).store := rfl
    rw [hrun]
    by_cases he : (!req.errors.isEmpty) = true
    · exact Or.inl (by simp [requestPasswordReset, he])
    · cases hf : findOne store (fun u => u.email == c.lib.toLowerCase req.email) with
      | none => exact Or.inl (by simp [requestPasswordReset, he, hf])
      | some u =>
        cases hsv : save c store (generatePasswordResetToken c u).1 false false with
        | error e => exact Or.inl (by simp [requestPasswordReset, he, hf, hsv])
        | ok r =>
          obtain ⟨s2, d2⟩ := r
          have hstore : (requestPasswordReset c store req).store = s2 := by
            cases hm : c.smtpOk <;> simp [requestPasswordReset, he, hf, hsv, hm]
          rw [hstore]
          exact Or.inr (Or.inl ⟨u, (findOne_some_mem hf).1,
            (generatePasswordResetToken c u).1, d2, false, rfl, fun h => h, fun h => h, hsv⟩)
  | resetPassword req =>
    have hrun : Operation.run c store (Operation.resetPassword req)
        = (resetPassword c store req).store := rfl
    rw [hrun]
    by_cases he : (!req.errors.isEmpty) = true
    · exact Or.inl (by simp [resetPassword, he])
    · cases hf : findOne store (resetFilter req.token c.now) with
      | none => exact Or.inl (by simp [resetPassword, he, hf])
      | some u =>
        cases hsv : save c store { u with password := req.password, passwordResetToken := none,
                                          passwordResetExpires := none } false true with
        | error e => exact Or.inl (by simp [resetPassword, he, hf, hsv])
        | ok r =>
          obtain ⟨s2, d2⟩ := r
          have hstore : (resetPassword c store req).store = s2 := by
            simp [resetPassword, he, hf, hsv]
          rw [hstore]
          exact Or.inr (Or.inl ⟨u, (findOne_some_mem hf).1,
            { u with password := req.password, passwordResetToken := none,
                     passwordResetExpires := none }, d2, true, rfl,
            fun h => h, fun h => h, hsv⟩)

/-- The collection after `register`: unchanged, or extended by one document,
which is unconfirmed, has the role `user`, and holds the issued token. -/
theorem register_store (c : Ctx) (store : Store) (req : RegisterRequest) :
    (register c store req).store = store ∨
    ∃ d2, (register c store req).store = store ++ [d2] ∧ d2.isEmailConfirmed = false ∧
      d2.role = "user" ∧
      d2.emailConfirmationToken = some (toHex (randomBytes c.entropy 32)) ∧
      duplicatesKey store d2 = false := by
  by_cases he : (!req.errors.isEmpty) = true
  · exact Or.inl (by simp [register, he])
  · cases hf : findByEmailOrUsername c store req.email with
    | some v => exact Or.inl (by simp [register, he, hf])
    | none =>
      cases hsv : save c store (generateEmailConfirmationToken c
          (newUser c req.username req.email req.password)).1 true true with
      | error e => exact Or.inl (by simp [register, he, hf, hsv])
      | ok r =>
        obtain ⟨s2, d2⟩ := r
        have hstore : (register c store req).store = s2 := by
          cases hm : c.smtpOk <;> simp [register, he, hf, hsv, hm]
        obtain ⟨hd, hs, _, hdup⟩ := save_new_ok_spec hsv
        rw [hstore]
        refine Or.inr ⟨d2, hs, ?_, ?_, ?_, hdup⟩ <;> (rw [hd]; rfl)

/-- C13: the predicate "every account with `isEmailConfirmed = true` has a null
`emailConfirmationToken`" is preserved by every operation of `AuthController`
(`register`, `login`, `confirmEmail`, `resendConfirmation`,
`requestPasswordReset`, `resetPassword`), for every input, and holds of the
empty collection. Every account that `register` adds is unconfirmed, so the
predicate holds of it. `resendConfirmation` for a confirmed account answers 400
"Email is already confirmed", issues no token and sends nothing. With `_id` a
key of the collection (which every operation preserves), an account whose
email is confirmed is still there, and confirmed, after any operation. -/
theorem confirmed_has_no_token_invariant (c : Ctx) (store : Store) (op : Operation) :
    ConfirmedHasNoToken [] ∧
    (ConfirmedHasNoToken store → ConfirmedHasNoToken (op.run c store)) ∧
    (∀ req, ∀ v ∈ (register c store req).store, v ∉ store → v.isEmailConfirmed = false) ∧
    (∀ req u, req.errors = [] →
      findOne store (fun v => v.email == c.lib.toLowerCase req.email) = some u →
      u.isEmailConfirmed = true →
      resendConfirmation c store req
        = { store := store,
            response := { status := 400, body := failure "Email is already confirmed" },
            mail := none }) ∧
    (UniqueIds store → UniqueIds (op.run c store)) ∧
    (UniqueIds store → ∀ v ∈ store, v.isEmailConfirmed = true →
      ∃ w ∈ op.run c store, w._id = v._id ∧ w.isEmailConfirmed = true) := by
  refine ⟨?_, ?_, ?_, ?_, ?_, ?_⟩
  · intro u hu
    simp at hu
  · intro hinv
    rcases run_shape c store op with h | ⟨u, hu, d, d2, pm, _, _, hkeep, hsv⟩ | ⟨d, d2, hd, hsv⟩
    · rw [h]; exact hinv
    · obtain ⟨_, hconf, htok, hs⟩ := save_stored_ok_spec hsv
      rw [hs]
      intro w hw hwc
      rcases mem_replace.mp hw with ⟨hwd, _⟩ | ⟨hws, _⟩
      · rw [hwd, htok]
        rw [hwd, hconf] at hwc
        exact hkeep (hinv u hu) hwc
      · exact hinv w hws hwc
    · obtain ⟨hd2, hs, _, _⟩ := save_new_ok_spec hsv
      rw [hs]
      intro w hw hwc
      rcases List.mem_append.mp hw with hws | hwd
      · exact hinv w hws hwc
      · have hw2 : w = d2 := by simpa using hwd
        rw [hw2, hd2] at hwc
        have : d.isEmailConfirmed = true := hwc
        rw [hd] at this
        exact absurd this (by decide)
  · intro req v hv hnot
    rcases register_store c store req with h | ⟨d2, hs, hconf, _, _, _⟩
    · rw [h] at hv; exact absurd hv hnot
    · rw [hs] at hv
      rcases List.mem_append.mp hv with hvs | hvd
      · exact absurd hvs hnot
      · have : v = d2 := by simpa using hvd
        rw [this]; exact hconf
  · intro req u hreq hf hconf
    simp [resendConfirmation, hreq, hf, hconf]
  · intro huniq
    rcases run_shape c store op with h | ⟨u, hu, d, d2, pm, hdid, _, _, hsv⟩ | ⟨d, d2, hd, hsv⟩
    · rw [h]; exact huniq
    · obtain ⟨_, _, _, hs⟩ := save_stored_ok_spec hsv
      rw [hs]
      intro a ha b hb hab
      rcases mem_replace.mp ha with ⟨had, _⟩ | ⟨has, hane⟩
      · rcases mem_replace.mp hb with ⟨hbd, _⟩ | ⟨hbs, hbne⟩
        · rw [had, hbd]
        · rw [had] at hab
          exact absurd hab.symm hbne
      · rcases mem_replace.mp hb with ⟨hbd, _⟩ | ⟨hbs, hbne⟩
        · rw [hbd] at hab
          exact absurd hab hane
        · exact huniq a has b hbs hab
    · obtain ⟨_, hs, _, hdup⟩ := save_new_ok_spec hsv
      have hfresh : ∀ v ∈ store, v._id ≠ d2._id := by
        intro v hv hvid
        have : duplicatesKey store d2 = true := by
          unfold duplicatesKey
          rw [List.any_eq_true]
          exact ⟨v, hv, by simp [hvid]⟩
        rw [hdup] at this
        exact absurd this (by decide)
      rw [hs]
      intro a ha b hb hab
      rcases List.mem_append.mp ha with has | had
      · rcases List.mem_append.mp hb with hbs | hbd
        · exact huniq a has b hbs hab
        · have hb2 : b = d2 := by simpa using hbd
          rw [hb2] at hab
          exact absurd hab (hfresh a has)
      · have ha2 : a = d2 := by simpa using had
        rcases List.mem_append.mp hb with hbs | hbd
        · rw [ha2] at hab
          exact absurd hab.symm (hfresh b hbs)
        · have hb2 : b = d2 := by simpa using hbd
          rw [ha2, hb2]
  · intro huniq v hv hvc
    rcases run_shape c store op with h | ⟨u, hu, d, d2, pm, hdid, hmono, _, hsv⟩ | ⟨d, d2, hd, hsv⟩
    · rw [h]; exact ⟨v, hv, rfl, hvc⟩
    · obtain ⟨hid2, hconf, _, hs⟩ := save_stored_ok_spec hsv
      rw [hs]
      by_cases hvid : v._id = d2._id
      · have hvu : v = u := huniq v hv u hu (by rw [hvid, hid2, hdid])
        refine ⟨d2, mem_replace.mpr (Or.inl ⟨rfl, v, hv, hvid⟩), hvid.symm, ?_⟩
        rw [hconf]
        exact hmono (by rw [← hvu]; exact hvc)
      · exact ⟨v, mem_replace.mpr (Or.inr ⟨hv, hvid⟩), rfl, hvc⟩
    · obtain ⟨_, hs, _, _⟩ := save_new_ok_spec hsv
      rw [hs]
      exact ⟨v, List.mem_append.mpr (Or.inl hv), rfl, hvc⟩

/-- Witness of C13: `carol` confirms her email in a collection that satisfies
the predicate; the collection afterwards satisfies it. -/
theorem confirmed_has_no_token_invariant_witness :
    ConfirmedHasNoToken [alice, carol] ∧
    ConfirmedHasNoToken
      ((Operation.confirmEmail "00112233445566778899aabbccddeeff").run (refCtx 5000)
        [alice, carol]) :=
  ⟨by intro u hu; simp at hu; rcases hu with h | h <;> (rw [h]; decide),
   (confirmed_has_no_token_invariant (refCtx 5000) [alice, carol]
      (Operation.confirmEmail "00112233445566778899aabbccddeeff")).2.1
      (by intro u hu; simp at hu; rcases hu with h | h <;> (rw [h]; decide))⟩

/-! ## Registration with unused username and email -/

/-- C14 (the code departs from the claim): a registration that passed
validation, whose email selects no account, but whose email (as stored, in
lower case and trimmed) does not match the pattern of the schema,
`/^\w+([.-]?\w+)*@\w+([.-]?\w+)*(\.\w{2,3})+$/`, is answered 500 "Internal
server error during registration" and creates no account, whether or not the
username and the email are unused: `save` rejects the document and the
handler's `catch` answers. The pattern refuses addresses that the route's
`isEmail` accepts, such as `bob@mail.info`. -/
theorem register_schema_email_answers_500 (c : Ctx) (store : Store) (req : RegisterRequest)
    (hreq : req.errors = []) (hunused : findByEmailOrUsername c store req.email = none)
    (hpat : emailPattern.test (c.lib.trim (c.lib.toLowerCase req.email)) = false) :
    (register c store req).response
      = { status := 500, body := failure "Internal server error during registration" } ∧
    (register c store req).store = store ∧
    (register c store req).mail = none := by
  have hval : validateDocument (generateEmailConfirmationToken c
      (newUser c req.username req.email req.password)).1 = false := by
    have he : (generateEmailConfirmationToken c
        (newUser c req.username req.email req.password)).1.email
          = c.lib.trim (c.lib.toLowerCase req.email) := rfl
    unfold validateDocument
    rw [he, hpat]
    simp
  have hsave : save c store (generateEmailConfirmationToken c
      (newUser c req.username req.email req.password)).1 true true
        = Except.error SaveError.ValidationError := by
    unfold save
    simp only [hval, if_true, Bool.not_false]
  have hreg : register c store req
      = { store := store,
          response := { status := 500, body := failure "Internal server error during registration" },
          mail := none } := by
    unfold register
    simp only [hreq, hunused, List.isEmpty_nil, Bool.not_true, Bool.false_eq_true, if_false]
    rw [hsave]
  rw [hreg]
  exact ⟨rfl, rfl, rfl⟩

/-- Witness of C14: `alice` is registered; `bob` registers with the unused
username `bob` and the unused email `bob@mail.info`, and is answered 500. -/
theorem register_schema_email_answers_500_witness :
    findByEmailOrUsername (refCtx 5000) [alice] "bob@mail.info" = none ∧
    duplicatesKey [alice]
      (newUser (refCtx 5000) "bob" "bob@mail.info" "Passw0rd1") = false ∧
    emailPattern.test (refTrim (refToLowerCase "bob@mail.info")) = false ∧
    (register (refCtx 5000) [alice]
        { errors := [], username := "bob", email := "bob@mail.info",
          password := "Passw0rd1" }).response
      = { status := 500, body := failure "Internal server error during registration" } :=
  ⟨by decide, by decide, by decide,
    (register_schema_email_answers_500 (refCtx 5000) [alice]
      { errors := [], username := "bob", email := "bob@mail.info", password := "Passw0rd1" }
      rfl (by decide) (by decide)).1⟩

/-- Registration that passed validation, with an email that selects no account,
a document that the schema accepts and that collides with no stored key, and a
mail transport that delivers: the answer is 201, exactly one account is added,
unconfirmed, with the role `user`, holding the token that is mailed. -/
theorem register_succeeds (c : Ctx) (store : Store) (req : RegisterRequest)
    (hreq : req.errors = []) (hunused : findByEmailOrUsername c store req.email = none)
    (hvalid : validateDocument (newUser c req.username req.email req.password) = true)
    (hfresh : duplicatesKey store (newUser c req.username req.email req.password) = false)
    (hmail : c.smtpOk = true) :
    ∃ d2, (register c store req).store = store ++ [d2] ∧
      (register c store req).response.status = 201 ∧
      (register c store req).response.body.success = true ∧
      d2.isEmailConfirmed = false ∧ d2.role = "user" ∧
      d2.username = c.lib.trim req.username ∧ d2.email = c.lib.trim (c.lib.toLowerCase req.email) ∧
      d2.emailConfirmationToken = some (toHex (randomBytes c.entropy 32)) ∧
      (register c store req).mail
        = some { recipient := d2.email, token := toHex (randomBytes c.entropy 32) } := by
  have hsave : save c store (generateEmailConfirmationToken c
      (newUser c req.username req.email req.password)).1 true true
        = Except.ok
            (store ++ [{ (generateEmailConfirmationToken c
                (newUser c req.username req.email req.password)).1 with
                password := c.lib.bcryptHash req.password c.salt, updatedAt := c.now }],
             { (generateEmailConfirmationToken c
                (newUser c req.username req.email req.password)).1 with
                password := c.lib.bcryptHash req.password c.salt, updatedAt := c.now }) := by
    have hv : validateDocument (generateEmailConfirmationToken c
        (newUser c req.username req.email req.password)).1 = true := hvalid
    unfold save
    simp only [hv, Bool.not_true, Bool.false_eq_true, if_false, if_true]
    rw [if_neg]
    · rfl
    · intro h
      have h2 : duplicatesKey store (newUser c req.username req.email req.password) = true := h
      rw [hfresh] at h2
      exact absurd h2 (by decide)
  have hreg : register c store req
      = { store := store ++ [{ (generateEmailConfirmationToken c
                (newUser c req.username req.email req.password)).1 with
                password := c.lib.bcryptHash req.password c.salt, updatedAt := c.now }],
          response :=
            { status := 201,
              body :=
                { success := true,
                  message := "User registered successfully. Please check your email to confirm your account.",
                  errors := none,
                  data := some (Data.registered c.objectId (c.lib.trim req.username)
                    (c.lib.trim (c.lib.toLowerCase req.email)) false) } },
          mail := some { recipient := c.lib.trim (c.lib.toLowerCase req.email),
                         token := toHex (randomBytes c.entropy 32) } } := by
    unfold register
    simp only [hreq, hunused, List.isEmpty_nil, Bool.not_true, Bool.false_eq_true, if_false]
    rw [hsave]
    simp only [hmail, if_true]
    rfl
  rw [hreg]
  exact ⟨_, rfl, rfl, rfl, rfl, rfl, rfl, rfl, rfl, rfl⟩

/-! ## Requesting a password reset -/

/-- C15 (the code departs from the claim): for requests that passed
validation, when the mail transport fails, `requestPasswordReset` answers 200
with the success envelope for an email that selects no account, and 500
"Internal server error during password reset request" for an email that selects
an account: the two answers differ, so the answer reveals whether the account
exists. The reset token was stored before the dispatch failed. -/
theorem requestPasswordReset_reveals_on_mail_failure (c : Ctx) (store : Store)
    (r1 r2 : EmailRequest) (h1 : r1.errors = []) (h2 : r2.errors = [])
    (hnone : findOne store (fun v => v.email == c.lib.toLowerCase r1.email) = none)
    (u : User) (hsome : findOne store (fun v => v.email == c.lib.toLowerCase r2.email) = some u)
    (hmail : c.smtpOk = false) :
    requestPasswordReset c store r1 = { store := store, response := resetRequested, mail := none } ∧
    (requestPasswordReset c store r2).response
      = { status := 500, body := failure "Internal server error during password reset request" } ∧
    (requestPasswordReset c store r1).response ≠ (requestPasswordReset c store r2).response ∧
    (requestPasswordReset c store r2).store
      = store.map (fun v => if v._id == u._id
          then { (generatePasswordResetToken c u).1 with updatedAt := c.now } else v) := by
  have e1 : requestPasswordReset c store r1
      = { store := store, response := resetRequested, mail := none } := by
    simp [requestPasswordReset, h1, hnone, resetRequested]
  have e2 : requestPasswordReset c store r2
      = { store := store.map (fun v => if v._id == u._id
            then { (generatePasswordResetToken c u).1 with updatedAt := c.now } else v),
          response := { status := 500,
                        body := failure "Internal server error during password reset request" },
          mail := none } := by
    unfold requestPasswordReset
    simp only [h2, hsome, List.isEmpty_nil, Bool.not_true, Bool.false_eq_true, if_false]
    rw [save_stored]
    simp only [hmail, Bool.false_eq_true, if_false]
    rfl
  rw [e1, e2]
  refine ⟨rfl, rfl, ?_, rfl⟩
  simp [resetRequested]

/-- Witness of C15: with a failing transport, a request for `bob@x.com`
(unknown) is answered 200 and a request for `alice@x.com` is answered 500. -/
theorem requestPasswordReset_reveals_on_mail_failure_witness :
    (requestPasswordReset { refCtx 5000 with smtpOk := false } [alice, carol]
        { errors := [], email := "bob@x.com" }).response.status = 200 ∧
    (requestPasswordReset { refCtx 5000 with smtpOk := false } [alice, carol]
        { errors := [], email := "alice@x.com" }).response.status = 500 :=
  ⟨by rw [(requestPasswordReset_reveals_on_mail_failure { refCtx 5000 with smtpOk := false }
        [alice, carol] { errors := [], email := "bob@x.com" }
        { errors := [], email := "alice@x.com" } rfl rfl (by decide) alice (by decide) rfl).1]
      rfl,
   by rw [(requestPasswordReset_reveals_on_mail_failure { refCtx 5000 with smtpOk := false }
        [alice, carol] { errors := [], email := "bob@x.com" }
        { errors := [], email := "alice@x.com" } rfl rfl (by decide) alice (by decide) rfl).2.1]⟩

/-- When the mail transport delivers, `requestPasswordReset` answers a request
that passed validation with the same 200 envelope whether or not the email
selects an account; without an account the collection is unchanged and nothing
is sent; with an account the token is stored with its expiry and mailed. -/
theorem requestPasswordReset_uniform (c : Ctx) (store : Store) (req : EmailRequest)
    (hreq : req.errors = []) (hmail : c.smtpOk = true) :
    (requestPasswordReset c store req).response = resetRequested ∧
    (findOne store (fun v => v.email == c.lib.toLowerCase req.email) = none →
      requestPasswordReset c store req
        = { store := store, response := resetRequested, mail := none }) ∧
    (∀ u, findOne store (fun v => v.email == c.lib.toLowerCase req.email) = some u →
      (requestPasswordReset c store req).store
        = store.map (fun v => if v._id == u._id
            then { (generatePasswordResetToken c u).1 with updatedAt := c.now } else v) ∧
      (requestPasswordReset c store req).mail
        = some { recipient := u.email, token := (generatePasswordResetToken c u).2 }) := by
  have hnone : findOne store (fun v => v.email == c.lib.toLowerCase req.email) = none →
      requestPasswordReset c store req
        = { store := store, response := resetRequested, mail := none } := by
    intro hf
    simp [requestPasswordReset, hreq, hf, resetRequested]
  have hsome : ∀ u, findOne store (fun v => v.email == c.lib.toLowerCase req.email) = some u →
      requestPasswordReset c store req
        = { store := store.map (fun v => if v._id == u._id
              then { (generatePasswordResetToken c u).1 with updatedAt := c.now } else v),
            response := resetRequested,
            mail := some { recipient := u.email, token := (generatePasswordResetToken c u).2 } } := by
    intro u hf
    unfold requestPasswordReset
    simp only [hreq, hf, List.isEmpty_nil, Bool.not_true, Bool.false_eq_true, if_false]
    rw [save_stored]
    simp only [hmail, if_true]
    rfl
  refine ⟨?_, hnone, ?_⟩
  · cases hf : findOne store (fun v => v.email == c.lib.toLowerCase req.email) with
    | none => rw [hnone hf]
    | some u => rw [hsome u hf]
  · intro u hf
    rw [hsome u hf]
    exact ⟨rfl, rfl⟩

/-! ## Sanitised representation -/

/-- C17: for every account, `toJSON` is the plain object of the account
without the entries `password`, `emailConfirmationToken`, `passwordResetToken`
and `passwordResetExpires`: none of these keys occurs in it, every other entry
of the plain object occurs in it with its value, and it has no further entry.
The `user` of a successful `login` response is `toJSON` of the selected
account. -/
theorem toJSON_sanitizes (u : User) :
    toJSON u
      = [("_id", Value.str u._id), ("username", Value.str u.username),
         ("email", Value.str u.email), ("isEmailConfirmed", Value.bool u.isEmailConfirmed),
         ("role", Value.str u.role), ("profilePicture", Value.ofOptStr u.profilePicture),
         ("createdAt", Value.num u.createdAt), ("updatedAt", Value.num u.updatedAt),
         ("__v", Value.num u.__v)] ∧
    (∀ kv ∈ toJSON u, kv.1 ∉ secretKeys) ∧
    (∀ kv ∈ toObject u, kv.1 ∉ secretKeys → kv ∈ toJSON u) ∧
    (∀ kv ∈ toJSON u, kv ∈ toObject u) ∧
    (∀ (c : Ctx) (store : Store) (req : LoginRequest) (user : User), req.errors = [] →
      findByEmailOrUsername c store req.identifier = some user →
      comparePassword c user req.password = true → user.isEmailConfirmed = true →
      (login c store req).body.data
        = some (Data.session (toJSON user) (generateToken c user._id))) := by
  have hlist : toJSON u
      = [("_id", Value.str u._id), ("username", Value.str u.username),
         ("email", Value.str u.email), ("isEmailConfirmed", Value.bool u.isEmailConfirmed),
         ("role", Value.str u.role), ("profilePicture", Value.ofOptStr u.profilePicture),
         ("createdAt", Value.num u.createdAt), ("updatedAt", Value.num u.updatedAt),
         ("__v", Value.num u.__v)] := by
    rfl
  refine ⟨hlist, ?_, ?_, ?_, ?_⟩
  · intro kv hkv
    rw [hlist] at hkv
    simp only [List.mem_cons, List.mem_singleton, List.not_mem_nil, or_false] at hkv
    rcases hkv with h | h | h | h | h | h | h | h | h <;> (rw [h]; simp [secretKeys])
  · intro kv hkv hns
    rw [hlist]
    simp only [toObject, List.mem_cons, List.mem_singleton, List.not_mem_nil, or_false] at hkv
    rcases hkv with h | h | h | h | h | h | h | h | h | h | h | h | h <;> rw [h] at hns ⊢ <;>
      simp [secretKeys] at hns ⊢
  · intro kv hkv
    rw [hlist] at hkv
    simp only [List.mem_cons, List.mem_singleton, List.not_mem_nil, or_false] at hkv
    rcases hkv with h | h | h | h | h | h | h | h | h <;> (rw [h]; simp [toObject])
  · intro c store req user hreq hf hp hc
    simp [login, hreq, hf, hp, hc]

/-- Witness of C17: the sanitised representation of `carol`, who holds a
confirmation token, has nine entries and no secret key. -/
theorem toJSON_sanitizes_witness :
    (toJSON carol).length = 9 ∧
    (∀ kv ∈ toJSON carol, kv.1 ∉ secretKeys) :=
  ⟨by rw [(toJSON_sanitizes carol).1]; rfl, (toJSON_sanitizes carol).2.1⟩

/-! ## `verifyToken` -/

/-- C18 (the code departs from the claim): when `jwt.verify` raises
`TokenExpiredError` for one token (correctly signed, past its expiry) and
`JsonWebTokenError` for another (bad signature or malformed structure),
`verifyToken` fails on both with the same error, `Error('Invalid token')`: the
expiry is not distinguishable from an invalid token. -/
theorem verifyToken_conflates_failures (c : Ctx) (expired invalid : String)
    (hexp : c.lib.jwtVerify expired (jwtSecret c.env) c.now
      = Except.error JwtErrorName.TokenExpiredError)
    (hinv : c.lib.jwtVerify invalid (jwtSecret c.env) c.now
      = Except.error JwtErrorName.JsonWebTokenError) :
    verifyToken c expired = Except.error "Invalid token" ∧
    verifyToken c invalid = Except.error "Invalid token" ∧
    verifyToken c expired = verifyToken c invalid := by
  have e1 : verifyToken c expired = Except.error "Invalid token" := by
    unfold verifyToken; rw [hexp]
  have e2 : verifyToken c invalid = Except.error "Invalid token" := by
    unfold verifyToken; rw [hinv]
  exact ⟨e1, e2, e1.trans e2.symm⟩

/-- Witness of C18: at second 20 the token of `alice`, which expired at second
9, and a string that is no token fail alike. -/
theorem verifyToken_conflates_failures_witness :
    refVerify aliceToken "fallback-secret-key" 20000
      = Except.error JwtErrorName.TokenExpiredError ∧
    refVerify "not-a-token" "fallback-secret-key" 20000
      = Except.error JwtErrorName.JsonWebTokenError ∧
    verifyToken (refCtx 20000) aliceToken = verifyToken (refCtx 20000) "not-a-token" :=
  ⟨by rfl, by rfl,
    (verifyToken_conflates_failures (refCtx 20000) aliceToken "not-a-token"
      (by rfl) (by rfl)).2.2⟩

/-! ## Format of the issued tokens -/

theorem hexDigit_isLowerHex (n : Nat) (h : n < 16) : isLowerHex (hexDigit n) = true := by
  interval_cases n <;> decide

theorem toHex_length (bytes : List Nat) : (toHex bytes).length = 2 * bytes.length := by
  show ((bytes.map hexOfByte).flatten).length = 2 * bytes.length
  induction bytes with
  | nil => rfl
  | cons b bs ih =>
    simp only [List.map_cons, List.flatten_cons, List.length_append, ih, List.length_cons]
    simp [hexOfByte]
    omega

theorem toHex_chars (bytes : List Nat) : ∀ ch ∈ (toHex bytes).data, isLowerHex ch = true := by
  show ∀ ch ∈ (bytes.map hexOfByte).flatten, isLowerHex ch = true
  intro ch hch
  rw [List.mem_flatten] at hch
  obtain ⟨l, hl, hcl⟩ := hch
  rw [List.mem_map] at hl
  obtain ⟨b, _, hb⟩ := hl
  rw [← hb] at hcl
  simp only [hexOfByte, List.mem_cons, List.mem_singleton, List.not_mem_nil, or_false] at hcl
  rcases hcl with h | h
  · rw [h]; exact hexDigit_isLowerHex _ (by omega)
  · rw [h]; exact hexDigit_isLowerHex _ (by omega)

theorem plus_cls_step (p : Char → Bool) (c : Char) (hc : p c = true) :
    (Regex.plus (Regex.cls p)).deriv c = Regex.seq Regex.eps (Regex.star (Regex.cls p)) ∧
    (Regex.seq Regex.eps (Regex.star (Regex.cls p))).deriv c
      = Regex.seq Regex.eps (Regex.star (Regex.cls p)) := by
  constructor <;>
    simp [Regex.plus, Regex.deriv, Regex.mkSeq, Regex.mkAlt, Regex.isNever, Regex.nullable, hc]

theorem matches_star_cls (p : Char → Bool) (l : List Char) (hl : ∀ ch ∈ l, p ch = true) :
    Regex.matchesList (Regex.seq Regex.eps (Regex.star (Regex.cls p))) l = true := by
  induction l with
  | nil => rfl
  | cons c cs ih =>
    unfold Regex.matchesList
    rw [(plus_cls_step p c (hl c (by simp))).2]
    exact ih (fun ch hch => hl ch (by simp [hch]))

theorem matches_plus_cls (p : Char → Bool) (c : Char) (cs : List Char)
    (hl : ∀ ch ∈ c :: cs, p ch = true) :
    Regex.matchesList (Regex.plus (Regex.cls p)) (c :: cs) = true := by
  unfold Regex.matchesList
  rw [(plus_cls_step p c (hl c (by simp))).1]
  exact matches_star_cls p cs (fun ch hch => hl ch (by simp [hch]))

/-- C16: the token returned by `generateEmailConfirmationToken` and the token
returned by `generatePasswordResetToken` are the hexadecimal rendering of the
32 bytes drawn by `crypto.randomBytes(32)`: a string of exactly 64 characters,
each in `0-9` or `a-f`. Its length lies within 32 and 128, it matches
`/^[a-f0-9]+$/`, and `validateToken` reports no error for it. -/
theorem issued_tokens_pass_validateToken (c : Ctx) (u : User) :
    (generateEmailConfirmationToken c u).2 = toHex (randomBytes c.entropy 32) ∧
    (generatePasswordResetToken c u).2 = toHex (randomBytes c.entropy 32) ∧
    (randomBytes c.entropy 32).length = 32 ∧
    (∀ b ∈ randomBytes c.entropy 32, b < 256) ∧
    (toHex (randomBytes c.entropy 32)).length = 64 ∧
    (∀ ch ∈ (toHex (randomBytes c.entropy 32)).data,
      ('0' ≤ ch ∧ ch ≤ '9') ∨ ('a' ≤ ch ∧ ch ≤ 'f')) ∧
    (32 ≤ (toHex (randomBytes c.entropy 32)).length ∧
      (toHex (randomBytes c.entropy 32)).length ≤ 128) ∧
    tokenPattern.test (toHex (randomBytes c.entropy 32)) = true ∧
    validateToken (generateEmailConfirmationToken c u).2 = [] ∧
    validateToken (generatePasswordResetToken c u).2 = [] := by
  have hlen32 : (randomBytes c.entropy 32).length = 32 := by
    simp [randomBytes]
  have hlen : (toHex (randomBytes c.entropy 32)).length = 64 := by
    rw [toHex_length, hlen32]
  have hchars := toHex_chars (randomBytes c.entropy 32)
  have hpat : tokenPattern.test (toHex (randomBytes c.entropy 32)) = true := by
    unfold tokenPattern Regex.test
    cases hd : (toHex (randomBytes c.entropy 32)).data with
    | nil =>
      have h0 : (toHex (randomBytes c.entropy 32)).length = 0 := by
        show (toHex (randomBytes c.entropy 32)).data.length = 0
        rw [hd]; rfl
      omega
    | cons ch cs =>
      rw [hd] at hchars
      exact matches_plus_cls isLowerHex ch cs hchars
  have hval : validateToken (toHex (randomBytes c.entropy 32)) = [] := by
    unfold validateToken
    rw [hpat, hlen]
    simp
  refine ⟨rfl, rfl, hlen32, ?_, hlen, ?_, ?_, hpat, hval, hval⟩
  · intro b hb
    simp only [randomBytes, List.mem_map] at hb
    obtain ⟨i, _, hi⟩ := hb
    rw [← hi]
    exact Nat.mod_lt _ (by decide)
  · intro ch hch
    have h := hchars ch hch
    simp only [isLowerHex, Bool.or_eq_true, Bool.and_eq_true, decide_eq_true_eq] at h
    rcases h with h | h
    · exact Or.inr h
    · exact Or.inl h
  · rw [hlen]
    exact ⟨by decide, by decide⟩

/-! ## Rate limits -/

theorem admission_fresh (l : RateLimit) (now : Nat) :
    admission l none now = (true, { start := now, count := 1 }) := rfl

theorem admission_elapsed (l : RateLimit) (w : Window) (now : Nat)
    (h : w.start + l.windowMs ≤ now) :
    admission l (some w) now = (true, { start := now, count := 1 }) := by
  simp [admission, h]

theorem admission_active (l : RateLimit) (w : Window) (now : Nat)
    (h : now < w.start + l.windowMs) :
    admission l (some w) now
      = (decide (w.count + 1 ≤ l.max), { start := w.start, count := w.count + 1 }) := by
  have : ¬ (w.start + l.windowMs ≤ now) := by omega
  simp [admission, this]

/-- One login through both limiters while both windows, started at `t0`, are
active and the generic count stays within its maximum. -/
theorem login_step (t0 t g a : Nat) (ht : t < t0 + 900000) (hg : g + 1 ≤ 100) :
    passLimiters (limiters Route.login)
        [some { start := t0, count := g }, some { start := t0, count := a }] t
      = (decide (a + 1 ≤ 5),
         [some { start := t0, count := g + 1 }, some { start := t0, count := a + 1 }]) := by
  have h1 : admission genericLimiter (some { start := t0, count := g }) t
      = (decide (g + 1 ≤ 100), { start := t0, count := g + 1 }) :=
    admission_active genericLimiter _ t (by simpa [genericLimiter] using ht)
  have h2 : admission authLimiter (some { start := t0, count := a }) t
      = (decide (a + 1 ≤ 5), { start := t0, count := a + 1 }) :=
    admission_active authLimiter _ t (by simpa [authLimiter] using ht)
  by_cases ha : a ≤ 4 <;> simp [limiters, routeLimiter, passLimiters, h1, h2, hg, ha]

/-- C19: every route passes first the limiter of `app.js`, 15 minutes / 100
requests; `register`, `login` and `reset-password` are registered with a
limiter of 15 minutes / 5; `resend-confirmation` and `request-password-reset`
with one of 60 minutes / 3; the profile update with one of 60 minutes / 10;
`change-password` and the account deletion with one of 15 minutes / 3.
Consequently, for a client with no open window, of six logins made in order
within 15 minutes of the first the first five are admitted and the sixth is
rejected, and a login made once 15 minutes have elapsed since the first is
admitted. -/
theorem rate_limits_guard_routes :
    (∀ r, (limiters r).head? = some { windowMs := 900000, max := 100 }) ∧
    routeLimiter Route.register = some { windowMs := 900000, max := 5 } ∧
    routeLimiter Route.login = some { windowMs := 900000, max := 5 } ∧
    routeLimiter Route.resetPassword = some { windowMs := 900000, max := 5 } ∧
    routeLimiter Route.resendConfirmation = some { windowMs := 3600000, max := 3 } ∧
    routeLimiter Route.requestPasswordReset = some { windowMs := 3600000, max := 3 } ∧
    routeLimiter Route.updateProfile = some { windowMs := 3600000, max := 10 } ∧
    routeLimiter Route.changePassword = some { windowMs := 900000, max := 3 } ∧
    routeLimiter Route.deleteAccount = some { windowMs := 900000, max := 3 } ∧
    (∀ t1 t2 t3 t4 t5 t6 t7 : Nat,
      (t1 ≤ t2 ∧ t2 ≤ t3 ∧ t3 ≤ t4 ∧ t4 ≤ t5 ∧ t5 ≤ t6) →
      t6 < t1 + 15 * 60 * 1000 → t1 + 15 * 60 * 1000 ≤ t7 →
      runRequests Route.login [none, none] [t1, t2, t3, t4, t5, t6, t7]
        = [true, true, true, true, true, false, true]) := by
  refine ⟨fun r => rfl, rfl, rfl, rfl, rfl, rfl, rfl, rfl, rfl, ?_⟩
  intro t1 t2 t3 t4 t5 t6 t7 hord hwin hlater
  obtain ⟨h12, h23, h34, h45, h56⟩ := hord
  have hfirst : passLimiters (limiters Route.login) [none, none] t1
      = (true, [some { start := t1, count := 1 }, some { start := t1, count := 1 }]) := by
    simp [limiters, routeLimiter, passLimiters, admission_fresh]
  have hlast : passLimiters (limiters Route.login)
      [some { start := t1, count := 6 }, some { start := t1, count := 6 }] t7
      = (true, [some { start := t7, count := 1 }, some { start := t7, count := 1 }]) := by
    have h1 : admission genericLimiter (some { start := t1, count := 6 }) t7
        = (true, { start := t7, count := 1 }) :=
      admission_elapsed genericLimiter _ t7 (by simpa [genericLimiter] using hlater)
    have h2 : admission authLimiter (some { start := t1, count := 6 }) t7
        = (true, { start := t7, count := 1 }) :=
      admission_elapsed authLimiter _ t7 (by simpa [authLimiter] using hlater)
    simp [limiters, routeLimiter, passLimiters, h1, h2]
  simp only [runRequests, hfirst,
    login_step t1 t2 1 1 (by omega) (by omega), login_step t1 t3 2 2 (by omega) (by omega),
    login_step t1 t4 3 3 (by omega) (by omega), login_step t1 t5 4 4 (by omega) (by omega),
    login_step t1 t6 5 5 (by omega) (by omega), hlast]
  simp

/-- Witness of C19: six logins one second apart, then one after 15 minutes. -/
theorem rate_limits_guard_routes_witness :
    runRequests Route.login [none, none] [0, 1000, 2000, 3000, 4000, 5000, 900000]
      = [true, true, true, true, true, false, true] :=
  rate_limits_guard_routes.2.2.2.2.2.2.2.2.2 0 1000 2000 3000 4000 5000 900000
    (by decide) (by decide) (by decide)

end AuthApp
